import Mathlib

/-!
# Verification of the `next-transform-dynamic` SWC pass

A shallow embedding of
`packages/next-swc/crates/next-transform-dynamic/src/lib.rs` (the
`next/dynamic` call-site rewriting pass) together with proofs of the
frozen specification claims.

Modelling conventions:
* The relevant fragment of the swc ECMAScript AST is embedded as mutual
  inductive types (`Expr`, `CallExpr`, ...).  Fields that the pass never
  reads or writes (e.g. `type_args`, `raw` text of string literals) are
  omitted.
* Spans are natural numbers; `DUMMY_SP` is `0`.
* `private_ident!` draws a fresh syntax-context mark from a global
  generator in swc; the generator is embedded as the `fresh` counter
  threaded through the patcher state, and a fresh identifier gets
  context `fresh + 1`.
* The diagnostics `HANDLER` collaborator is embedded as the `diags` list
  in the patcher state; `emit` appends one `(span, message)` entry.
* Rust `Vec` indexing (`expr.args[0]`, `quasis[0]`) panics when out of
  bounds, so every function that can reach such an index returns
  `Option`; `none` models a panic.
* The source dispatches on the `is_next_dynamic_first_arg` flag inside
  `fold_call_expr`; while the flag is set no other branch of the visitor
  is reachable, so the capture-mode traversal is split into its own
  function family (`captureExpr` ...) and the main family defers to it
  when the flag is set.
* `pathdiff::diff_paths` and swc's `prepend_stmt` are external to the
  crate.  `diff_paths` is passed in as a function argument `diff`
  (paths are plain strings); `prepend_stmt` is modelled as list `cons`.
-/

namespace NextDynamic

/-- Source span (swc `Span`), collapsed to a single number. -/
abbrev Span := Nat

/-- The swc `DUMMY_SP` dummy span. -/
def DUMMY_SP : Span := 0

/-- An identifier: symbol, span, and syntax context (`ctxt = 0` for
plain identifiers such as those made by `Ident::new`/`quote_ident!`;
fresh private identifiers carry a positive context mark). -/
structure Ident where
  sym : String
  span : Span
  ctxt : Nat

/-- `Id` in swc: the `to_id()` projection of an identifier, i.e. symbol
plus syntax context. -/
abbrev SwcId := String × Nat

/-- The `Ident::to_id` projection. -/
def Ident.to_id (i : Ident) : SwcId := (i.sym, i.ctxt)

/-- A string literal (swc `Str`; the `raw` field is not modelled). -/
structure Str where
  span : Span
  value : String

/-- A boolean literal (swc `Bool`). -/
structure BoolLit where
  span : Span
  value : Bool

/-- Literals the pass inspects or builds (swc `Lit`, restricted). -/
inductive Lit where
  | str (s : Str)
  | bool (b : BoolLit)
  | null (span : Span)

/-- One quasi of a template literal (swc `TplElement`; only `raw` and
the span are read). -/
structure TplElement where
  span : Span
  raw : String

mutual

/-- The expression fragment of the swc AST used by the pass. -/
inductive Expr where
  | lit (l : Lit)
  | ident (i : Ident)
  | tpl (span : Span) (exprs : List Expr) (quasis : List TplElement)
  | object (span : Span) (props : List PropOrSpread)
  | array (span : Span) (elems : List (Option ExprOrSpread))
  | arrow (a : ArrowExpr)
  | call (c : CallExpr)
  | member (span : Span) (obj : Expr) (prop : String)
  | bin (span : Span) (op : String) (left : Expr) (right : Expr)

/-- A call argument (swc `ExprOrSpread`). -/
inductive ExprOrSpread where
  | mk (spread : Option Span) (expr : Expr)

/-- An object-literal member (swc `PropOrSpread`). -/
inductive PropOrSpread where
  | prop (p : SwcProp)
  | spread (expr : Expr)

/-- An object property (swc `Prop`, restricted to the shapes the pass
matches: key/value pairs, with `shorthand` as the representative of the
other variants). -/
inductive SwcProp where
  | keyValue (key : PropName) (value : Expr)
  | shorthand (i : Ident)

/-- A property key (swc `PropName`, restricted). -/
inductive PropName where
  | ident (i : Ident)
  | strKey (s : Str)

/-- An arrow function (swc `ArrowExpr`; `type_params`/`return_type`
omitted, parameter patterns collapsed to identifiers). -/
inductive ArrowExpr where
  | mk (span : Span) (params : List Ident) (body : BlockStmtOrExpr)
       (is_async : Bool) (is_generator : Bool)

/-- An arrow body (swc `BlockStmtOrExpr`; the block keeps its span). -/
inductive BlockStmtOrExpr where
  | blockStmt (span : Span) (stmts : List Stmt)
  | expr (e : Expr)

/-- The statement fragment the pass touches (swc `Stmt`, restricted to
expression statements, the only kind the pass builds or recurses
into). -/
inductive Stmt where
  | exprStmt (span : Span) (expr : Expr)

/-- A callee (swc `Callee`). -/
inductive Callee where
  | importCallee (span : Span)
  | superCallee (span : Span)
  | expr (e : Expr)

/-- A call expression (swc `CallExpr`; `type_args` omitted). -/
inductive CallExpr where
  | mk (span : Span) (callee : Callee) (args : List ExprOrSpread)

end

/-- The span of a call expression. -/
def CallExpr.span : CallExpr → Span
  | .mk s _ _ => s

/-- The callee of a call expression. -/
def CallExpr.callee : CallExpr → Callee
  | .mk _ c _ => c

/-- The argument list of a call expression. -/
def CallExpr.args : CallExpr → List ExprOrSpread
  | .mk _ _ a => a

/-- The spread marker of an argument. -/
def ExprOrSpread.spread : ExprOrSpread → Option Span
  | .mk s _ => s

/-- The expression of an argument. -/
def ExprOrSpread.expr : ExprOrSpread → Expr
  | .mk _ e => e

/-- The `ExprExt::as_lit` helper from swc utils: a literal expression
yields its literal. -/
def Expr.as_lit : Expr → Option Lit
  | .lit l => some l
  | _ => none

/-- Whether an expression is an object literal (the `Expr::Object(_)`
pattern of the options-argument validation). -/
def Expr.isObjectLit : Expr → Bool
  | .object _ _ => true
  | _ => false

/-- An import specifier (swc `ImportSpecifier`; `imported` is the
optional source-side name of a named import). -/
inductive ImportSpecifier where
  | default (local_ident : Ident)
  | named (local_ident : Ident) (imported : Option Ident) (is_type_only : Bool)
  | namespaceStar (local_ident : Ident)

/-- An import declaration (swc `ImportDecl`; the `with` attributes are
omitted, `src` is the module-specifier string literal). -/
structure ImportDecl where
  span : Span
  specifiers : List ImportSpecifier
  src : Str
  type_only : Bool

/-- A module-level declaration (swc `ModuleDecl`, restricted to import
declarations, the only kind the pass handles specially or builds). -/
inductive ModuleDecl where
  | importDecl (d : ImportDecl)

/-- A module item (swc `ModuleItem`). -/
inductive ModuleItem where
  | stmt (s : Stmt)
  | moduleDecl (d : ModuleDecl)

/-- A module (swc `Module`). -/
structure Module where
  span : Span
  body : List ModuleItem
  shebang : Option String

/-- Source-file identity (swc `FileName`, restricted to the variants
the pass distinguishes: `Real` filesystem paths versus everything
else, with `custom` as the representative non-path variant).  Paths are
plain strings. -/
inductive FileName where
  | real (p : String)
  | custom (s : String)

/-- The `Display`/`to_string` form of a `FileName` (for `Real` paths
this is the path's display form). -/
def FileName.toStr : FileName → String
  | .real p => p
  | .custom s => s

/-- `TurbopackImport` (lib.rs lines 107-126): one queued
pending import. -/
inductive TurbopackImport where
  | developmentTransition (id_ident : Ident) (chunks_ident : Ident) (specifier : String)
  | developmentId (id_ident : Ident) (specifier : String)
  | buildTransition (id_ident : Ident) (specifier : String)
  | buildId (id_ident : Ident) (specifier : String)

/-- `NextDynamicPatcherState` (lib.rs lines 95-105). -/
inductive NextDynamicPatcherState where
  | webpack
  | turbopack (dynamic_transition_name : String) (imports : List TurbopackImport)

/-- `NextDynamicPatcher` (lib.rs lines 81-93), extended with the
embedded external effects: `fresh` is the private-identifier mark
generator behind `private_ident!`, `diags` the diagnostics emitted
through `HANDLER`. -/
structure NextDynamicPatcher where
  is_development : Bool
  is_server : Bool
  is_rsc_server_layer : Bool
  pages_dir : Option String
  filename : FileName
  dynamic_bindings : List SwcId
  is_next_dynamic_first_arg : Bool
  dynamically_imported_specifier : Option (String × Span)
  state : NextDynamicPatcherState
  added_nextjs_pure_import : Bool
  fresh : Nat
  diags : List (Span × String)

/-- `private_ident!(span, sym)`: mint an identifier with a fresh
syntax-context mark. -/
def private_ident (p : NextDynamicPatcher) (span : Span) (sym : String) :
    Ident × NextDynamicPatcher :=
  (⟨sym, span, p.fresh + 1⟩, { p with fresh := p.fresh + 1 })

/-- Overwrite the transient captured-specifier slot. -/
def setSpec (p : NextDynamicPatcher) (s : Option (String × Span)) :
    NextDynamicPatcher :=
  { p with dynamically_imported_specifier := s }

/-- `HANDLER.with(|handler| handler.struct_span_err(span, msg).emit())`:
record one diagnostic. -/
def emitDiag (p : NextDynamicPatcher) (span : Span) (msg : String) :
    NextDynamicPatcher :=
  { p with diags := p.diags ++ [(span, msg)] }

/-- `rel_filename` (lib.rs lines 688-709).  The external
`pathdiff::diff_paths(file, base)` collaborator is the `diff`
argument. -/
def rel_filename (diff : String → String → Option String)
    (base : Option String) (file : FileName) : String :=
  match base with
  | none => file.toStr
  | some base =>
    match file with
    | .real v =>
      match diff v base with
      | none => v
      | some rel_path => rel_path
    | _ => file.toStr

/-- `module_id_options` (lib.rs lines 482-493): a one-element `modules`
key wrapping the module id expression in a one-element array. -/
def module_id_options (module_id : Expr) : List PropOrSpread :=
  [.prop (.keyValue (.ident ⟨"modules", DUMMY_SP, 0⟩)
    (.array DUMMY_SP [some (.mk none module_id)]))]

/-- `webpack_options` (lib.rs lines 495-514): a one-element `webpack`
key wrapping the module id expression in a zero-argument arrow that
returns a one-element array. -/
def webpack_options (module_id : Expr) : List PropOrSpread :=
  [.prop (.keyValue (.ident ⟨"webpack", DUMMY_SP, 0⟩)
    (.arrow (.mk DUMMY_SP []
      (.expr (.array DUMMY_SP [some (.mk none module_id)])) false false)))]

/-- The capture step of lib.rs lines 171-180: read a specifier out of
the first argument of a dynamic `import(...)` call.  A `none` result
models a Rust panic (`quasis[0]` on an empty quasi list). -/
def captureFromArg (p : NextDynamicPatcher) (a : ExprOrSpread) :
    Option NextDynamicPatcher :=
  match a.expr with
  | .lit (.str s) => some (setSpec p (some (s.value, s.span)))
  | .tpl _ exprs quasis =>
    if exprs.isEmpty then
      match quasis.get? 0 with
      | none => none
      | some q => some (setSpec p (some (q.raw, q.span)))
    else some p
  | _ => some p

mutual

/-- `fold_with` dispatch while `is_next_dynamic_first_arg` is set: the
default children traversal for every node except call expressions. -/
def captureExpr (p : NextDynamicPatcher) : Expr → Option (Expr × NextDynamicPatcher)
  | .lit l => some (.lit l, p)
  | .ident i => some (.ident i, p)
  | .tpl span exprs quasis =>
    match captureExprList p exprs with
    | none => none
    | some (exprs, p) => some (.tpl span exprs quasis, p)
  | .object span props =>
    match capturePropList p props with
    | none => none
    | some (props, p) => some (.object span props, p)
  | .array span elems =>
    match captureElemList p elems with
    | none => none
    | some (elems, p) => some (.array span elems, p)
  | .arrow (.mk span params body is_async is_generator) =>
    match captureBlockStmtOrExpr p body with
    | none => none
    | some (body, p) => some (.arrow (.mk span params body is_async is_generator), p)
  | .call c =>
    match captureCallExpr p c with
    | none => none
    | some (c, p) => some (.call c, p)
  | .member span obj prop =>
    match captureExpr p obj with
    | none => none
    | some (obj, p) => some (.member span obj prop, p)
  | .bin span op left right =>
    match captureExpr p left with
    | none => none
    | some (left, p) =>
      match captureExpr p right with
      | none => none
      | some (right, p) => some (.bin span op left right, p)

/-- Capture-mode traversal of a list of expressions. -/
def captureExprList (p : NextDynamicPatcher) :
    List Expr → Option (List Expr × NextDynamicPatcher)
  | [] => some ([], p)
  | e :: rest =>
    match captureExpr p e with
    | none => none
    | some (e, p) =>
      match captureExprList p rest with
      | none => none
      | some (rest, p) => some (e :: rest, p)

/-- Capture-mode traversal of an argument list. -/
def captureArgList (p : NextDynamicPatcher) :
    List ExprOrSpread → Option (List ExprOrSpread × NextDynamicPatcher)
  | [] => some ([], p)
  | .mk spread e :: rest =>
    match captureExpr p e with
    | none => none
    | some (e, p) =>
      match captureArgList p rest with
      | none => none
      | some (rest, p) => some (.mk spread e :: rest, p)

/-- Capture-mode traversal of array elements. -/
def captureElemList (p : NextDynamicPatcher) :
    List (Option ExprOrSpread) → Option (List (Option ExprOrSpread) × NextDynamicPatcher)
  | [] => some ([], p)
  | none :: rest =>
    match captureElemList p rest with
    | none => none
    | some (rest, p) => some (none :: rest, p)
  | some (.mk spread e) :: rest =>
    match captureExpr p e with
    | none => none
    | some (e, p) =>
      match captureElemList p rest with
      | none => none
      | some (rest, p) => some (some (.mk spread e) :: rest, p)

/-- Capture-mode traversal of object members. -/
def capturePropList (p : NextDynamicPatcher) :
    List PropOrSpread → Option (List PropOrSpread × NextDynamicPatcher)
  | [] => some ([], p)
  | .prop (.keyValue key value) :: rest =>
    match captureExpr p value with
    | none => none
    | some (value, p) =>
      match capturePropList p rest with
      | none => none
      | some (rest, p) => some (.prop (.keyValue key value) :: rest, p)
  | .prop (.shorthand i) :: rest =>
    match capturePropList p rest with
    | none => none
    | some (rest, p) => some (.prop (.shorthand i) :: rest, p)
  | .spread e :: rest =>
    match captureExpr p e with
    | none => none
    | some (e, p) =>
      match capturePropList p rest with
      | none => none
      | some (rest, p) => some (.spread e :: rest, p)

/-- Capture-mode traversal of an arrow body. -/
def captureBlockStmtOrExpr (p : NextDynamicPatcher) :
    BlockStmtOrExpr → Option (BlockStmtOrExpr × NextDynamicPatcher)
  | .blockStmt span stmts =>
    match captureStmtList p stmts with
    | none => none
    | some (stmts, p) => some (.blockStmt span stmts, p)
  | .expr e =>
    match captureExpr p e with
    | none => none
    | some (e, p) => some (.expr e, p)

/-- Capture-mode traversal of a statement list. -/
def captureStmtList (p : NextDynamicPatcher) :
    List Stmt → Option (List Stmt × NextDynamicPatcher)
  | [] => some ([], p)
  | .exprStmt span e :: rest =>
    match captureExpr p e with
    | none => none
    | some (e, p) =>
      match captureStmtList p rest with
      | none => none
      | some (rest, p) => some (.exprStmt span e :: rest, p)

/-- Capture-mode traversal of a callee. -/
def captureCallee (p : NextDynamicPatcher) :
    Callee → Option (Callee × NextDynamicPatcher)
  | .importCallee span => some (.importCallee span, p)
  | .superCallee span => some (.superCallee span, p)
  | .expr e =>
    match captureExpr p e with
    | none => none
    | some (e, p) => some (.expr e, p)

/-- The default `fold_children_with` of a call expression in capture
mode (callee first, then the arguments, in field order). -/
def captureCallChildren (p : NextDynamicPatcher) :
    CallExpr → Option (CallExpr × NextDynamicPatcher)
  | .mk span callee args =>
    match captureCallee p callee with
    | none => none
    | some (callee, p) =>
      match captureArgList p args with
      | none => none
      | some (args, p) => some (.mk span callee args, p)

/-- `fold_call_expr` while `is_next_dynamic_first_arg` is set (lib.rs
lines 169-182): if the callee is the dynamic import operator, read the
specifier out of `args[0]` (the unchecked index is a panic, `none`,
when the argument list is empty), then fold the children. -/
def captureCallExpr (p : NextDynamicPatcher) (c : CallExpr) :
    Option (CallExpr × NextDynamicPatcher) :=
  match
    match c.callee with
    | .importCallee _ =>
      match c.args.get? 0 with
      | none => none
      | some a => captureFromArg p a
    | _ => some p
  with
  | none => none
  | some p => captureCallChildren p c

end

/-- The `generated` object of lib.rs lines 244-337: the
`loadableGenerated` value produced by the Metadata Strategy, together
with its state effects (pending-import pushes and fresh-identifier
mints).  `specifier`/`sp` are the captured specifier and its span. -/
def buildGenerated (diff : String → String → Option String)
    (p : NextDynamicPatcher) (specifier : String) (sp : Span) :
    Expr × NextDynamicPatcher :=
  match p.state with
  | .webpack =>
    if p.is_development || p.is_server then
      -- quote!("$left + $right"), left = format!("{} -> ", rel_filename(..)),
      -- right = the specifier string
      (.object DUMMY_SP (module_id_options
        (.bin DUMMY_SP "+"
          (.lit (.str ⟨DUMMY_SP, rel_filename diff p.pages_dir p.filename ++ " -> "⟩))
          (.lit (.str ⟨DUMMY_SP, specifier⟩)))), p)
    else
      -- quote!("require.resolveWeak($id)")
      (.object DUMMY_SP (webpack_options
        (.call (.mk DUMMY_SP
          (.expr (.member DUMMY_SP (.ident ⟨"require", DUMMY_SP, 0⟩) "resolveWeak"))
          [.mk none (.lit (.str ⟨DUMMY_SP, specifier⟩))]))), p)
  | .turbopack dynamic_transition_name imports =>
    let (id_ident, p) := private_ident p sp "id"
    match p.is_development, p.is_server with
    | true, true =>
      let (chunks_ident, p) := private_ident p sp "chunks"
      let imports := imports ++ [.developmentTransition id_ident chunks_ident specifier]
      -- quote!("JSON.stringify({ id: $id, chunks: $chunks })")
      (.object DUMMY_SP (module_id_options
        (.call (.mk DUMMY_SP
          (.expr (.member DUMMY_SP (.ident ⟨"JSON", DUMMY_SP, 0⟩) "stringify"))
          [.mk none (.object DUMMY_SP
            [.prop (.keyValue (.ident ⟨"id", DUMMY_SP, 0⟩) (.ident id_ident)),
             .prop (.keyValue (.ident ⟨"chunks", DUMMY_SP, 0⟩) (.ident chunks_ident))])]))),
       { p with state := .turbopack dynamic_transition_name imports })
    | true, false =>
      let imports := imports ++ [.developmentId id_ident specifier]
      (.object DUMMY_SP (module_id_options (.ident id_ident)),
       { p with state := .turbopack dynamic_transition_name imports })
    | false, true =>
      -- the source shadows the outer id_ident with a second fresh one
      let (id_ident, p) := private_ident p sp "id"
      let imports := imports ++ [.buildTransition id_ident specifier]
      (.object DUMMY_SP (module_id_options (.ident id_ident)),
       { p with state := .turbopack dynamic_transition_name imports })
    | false, false =>
      -- the source shadows the outer id_ident with a second fresh one
      let (id_ident, p) := private_ident p sp "id"
      let imports := imports ++ [.buildId id_ident specifier]
      (.object DUMMY_SP (module_id_options (.ident id_ident)),
       { p with state := .turbopack dynamic_transition_name imports })

/-- The options scan of lib.rs lines 353-389: whether the options
object literal carries a `ssr` key with literal value `false`. -/
def hasSsrFalseProps (props : List PropOrSpread) : Bool :=
  props.any fun prop =>
    match prop with
    | .prop (.keyValue (.ident i) value) =>
      i.sym == "ssr" &&
        (match value.as_lit with
         | some (.bool b) => b.value == false
         | _ => false)
    | _ => false

/-- The second-argument shape validation of lib.rs lines 209-224: two
arguments whose second is not an object literal. -/
def optionsShapeError (args : List ExprOrSpread) : Bool :=
  args.length == 2 &&
    (match args.get? 1 with
     | some a => !a.expr.isObjectLit
     | none => false)

/-- Lib.rs lines 226-477: the rewrite of a validated loader call.
`span`/`identifier` are the call's span and callee identifier, `a0` the
first argument and `argsRest` the remaining ones, all after the normal
children fold. -/
def rewriteCore (diff : String → String → Option String)
    (p : NextDynamicPatcher) (span : Span) (identifier : Ident)
    (a0 : ExprOrSpread) (argsRest : List ExprOrSpread) :
    Option (CallExpr × NextDynamicPatcher) :=
  -- lines 226-228: re-fold args[0] with is_next_dynamic_first_arg set
  match captureExpr { p with is_next_dynamic_first_arg := true } a0.expr with
  | none => none
  | some (arg0, p) =>
    let p := { p with is_next_dynamic_first_arg := false }
    -- lines 230-234: take() the captured specifier, abort when absent
    match p.dynamically_imported_specifier with
    | none =>
      some (.mk span (.expr (.ident identifier)) (.mk a0.spread arg0 :: argsRest),
            { p with dynamically_imported_specifier := none })
    | some (dynamically_imported_specifier, dynamically_imported_specifier_span) =>
      let p := { p with dynamically_imported_specifier := none }
      let (generated, p) :=
        buildGenerated diff p dynamically_imported_specifier
          dynamically_imported_specifier_span
      -- lines 339-343: the loadableGenerated property
      let props : List PropOrSpread :=
        [.prop (.keyValue (.ident ⟨"loadableGenerated", DUMMY_SP, 0⟩) generated)]
      let args := ExprOrSpread.mk a0.spread arg0 :: argsRest
      -- lines 345-392: scan the options for ssr: false and copy them over
      let scanned :=
        if args.length == 2 then
          match args.get? 1 with
          | some a1 =>
            match a1.expr with
            | .object _ options_props =>
              (hasSsrFalseProps options_props, props ++ options_props)
            | _ => (false, props)
          | none => (false, props)
        else (false, props)
      let has_ssr_false := scanned.1
      let props := scanned.2
      -- lines 408-460: the ssr-false tree-shaking wrapper
      let wrapped :=
        if has_ssr_false && p.is_server then
          if !p.is_rsc_server_layer then
            let pure_fn_call : Expr :=
              .call (.mk DUMMY_SP
                (.expr (.ident ⟨"__nextjs_pure", DUMMY_SP, 0⟩))
                [.mk none arg0])
            let side_effect_free_loader_arg : Expr :=
              .arrow (.mk DUMMY_SP []
                (.blockStmt DUMMY_SP [.exprStmt DUMMY_SP pure_fn_call]) true false)
            (ExprOrSpread.mk none side_effect_free_loader_arg :: argsRest,
             { p with added_nextjs_pure_import := true })
          else (args, p)
        else (args, p)
      let args := wrapped.1
      let p := wrapped.2
      -- lines 462-474: write back the merged options object
      let second_arg : ExprOrSpread := .mk none (.object DUMMY_SP props)
      let args :=
        if args.length == 2 then args.set 1 second_arg
        else args ++ [second_arg]
      some (.mk span (.expr (.ident identifier)) args, p)

/-- Lib.rs lines 185-478: recognition and validation of a loader call
(run on the already children-folded call), dispatching to
`rewriteCore` when validation passes. -/
def rewriteLoaderCall (diff : String → String → Option String)
    (p : NextDynamicPatcher) (c : CallExpr) :
    Option (CallExpr × NextDynamicPatcher) :=
  match c.callee with
  | .expr (.ident identifier) =>
    if p.dynamic_bindings.contains identifier.to_id then
      if c.args.isEmpty then
        some (c, emitDiag p identifier.span
          "next/dynamic requires at least one argument")
      else if c.args.length > 2 then
        some (c, emitDiag p identifier.span
          "next/dynamic only accepts 2 arguments")
      else if optionsShapeError c.args then
        some (c, emitDiag p identifier.span
          "next/dynamic options must be an object literal.\nRead more: https://nextjs.org/docs/messages/invalid-dynamic-options-type")
      else
        match c.args with
        | [] => none
        | a0 :: argsRest => rewriteCore diff p c.span identifier a0 argsRest
    else some (c, p)
  | _ => some (c, p)

mutual

/-- The `Fold` dispatch over expressions in normal mode (the default
children traversal, with `fold_call_expr` overridden). -/
def foldExpr (diff : String → String → Option String)
    (p : NextDynamicPatcher) : Expr → Option (Expr × NextDynamicPatcher)
  | .lit l => some (.lit l, p)
  | .ident i => some (.ident i, p)
  | .tpl span exprs quasis =>
    match foldExprList diff p exprs with
    | none => none
    | some (exprs, p) => some (.tpl span exprs quasis, p)
  | .object span props =>
    match foldPropList diff p props with
    | none => none
    | some (props, p) => some (.object span props, p)
  | .array span elems =>
    match foldElemList diff p elems with
    | none => none
    | some (elems, p) => some (.array span elems, p)
  | .arrow (.mk span params body is_async is_generator) =>
    match foldBlockStmtOrExpr diff p body with
    | none => none
    | some (body, p) => some (.arrow (.mk span params body is_async is_generator), p)
  | .call c =>
    match foldCallExpr diff p c with
    | none => none
    | some (c, p) => some (.call c, p)
  | .member span obj prop =>
    match foldExpr diff p obj with
    | none => none
    | some (obj, p) => some (.member span obj prop, p)
  | .bin span op left right =>
    match foldExpr diff p left with
    | none => none
    | some (left, p) =>
      match foldExpr diff p right with
      | none => none
      | some (right, p) => some (.bin span op left right, p)

/-- Normal-mode traversal of a list of expressions. -/
def foldExprList (diff : String → String → Option String)
    (p : NextDynamicPatcher) : List Expr → Option (List Expr × NextDynamicPatcher)
  | [] => some ([], p)
  | e :: rest =>
    match foldExpr diff p e with
    | none => none
    | some (e, p) =>
      match foldExprList diff p rest with
      | none => none
      | some (rest, p) => some (e :: rest, p)

/-- Normal-mode traversal of an argument list. -/
def foldArgList (diff : String → String → Option String)
    (p : NextDynamicPatcher) :
    List ExprOrSpread → Option (List ExprOrSpread × NextDynamicPatcher)
  | [] => some ([], p)
  | .mk spread e :: rest =>
    match foldExpr diff p e with
    | none => none
    | some (e, p) =>
      match foldArgList diff p rest with
      | none => none
      | some (rest, p) => some (.mk spread e :: rest, p)

/-- Normal-mode traversal of array elements. -/
def foldElemList (diff : String → String → Option String)
    (p : NextDynamicPatcher) :
    List (Option ExprOrSpread) → Option (List (Option ExprOrSpread) × NextDynamicPatcher)
  | [] => some ([], p)
  | none :: rest =>
    match foldElemList diff p rest with
    | none => none
    | some (rest, p) => some (none :: rest, p)
  | some (.mk spread e) :: rest =>
    match foldExpr diff p e with
    | none => none
    | some (e, p) =>
      match foldElemList diff p rest with
      | none => none
      | some (rest, p) => some (some (.mk spread e) :: rest, p)

/-- Normal-mode traversal of object members. -/
def foldPropList (diff : String → String → Option String)
    (p : NextDynamicPatcher) :
    List PropOrSpread → Option (List PropOrSpread × NextDynamicPatcher)
  | [] => some ([], p)
  | .prop (.keyValue key value) :: rest =>
    match foldExpr diff p value with
    | none => none
    | some (value, p) =>
      match foldPropList diff p rest with
      | none => none
      | some (rest, p) => some (.prop (.keyValue key value) :: rest, p)
  | .prop (.shorthand i) :: rest =>
    match foldPropList diff p rest with
    | none => none
    | some (rest, p) => some (.prop (.shorthand i) :: rest, p)
  | .spread e :: rest =>
    match foldExpr diff p e with
    | none => none
    | some (e, p) =>
      match foldPropList diff p rest with
      | none => none
      | some (rest, p) => some (.spread e :: rest, p)

/-- Normal-mode traversal of an arrow body. -/
def foldBlockStmtOrExpr (diff : String → String → Option String)
    (p : NextDynamicPatcher) :
    BlockStmtOrExpr → Option (BlockStmtOrExpr × NextDynamicPatcher)
  | .blockStmt span stmts =>
    match foldStmtList diff p stmts with
    | none => none
    | some (stmts, p) => some (.blockStmt span stmts, p)
  | .expr e =>
    match foldExpr diff p e with
    | none => none
    | some (e, p) => some (.expr e, p)

/-- Normal-mode traversal of a statement list. -/
def foldStmtList (diff : String → String → Option String)
    (p : NextDynamicPatcher) : List Stmt → Option (List Stmt × NextDynamicPatcher)
  | [] => some ([], p)
  | .exprStmt span e :: rest =>
    match foldExpr diff p e with
    | none => none
    | some (e, p) =>
      match foldStmtList diff p rest with
      | none => none
      | some (rest, p) => some (.exprStmt span e :: rest, p)

/-- Normal-mode traversal of a callee. -/
def foldCallee (diff : String → String → Option String)
    (p : NextDynamicPatcher) : Callee → Option (Callee × NextDynamicPatcher)
  | .importCallee span => some (.importCallee span, p)
  | .superCallee span => some (.superCallee span, p)
  | .expr e =>
    match foldExpr diff p e with
    | none => none
    | some (e, p) => some (.expr e, p)

/-- The default `fold_children_with` of a call expression in normal
mode (callee first, then the arguments, in field order). -/
def foldCallChildren (diff : String → String → Option String)
    (p : NextDynamicPatcher) : CallExpr → Option (CallExpr × NextDynamicPatcher)
  | .mk span callee args =>
    match foldCallee diff p callee with
    | none => none
    | some (callee, p) =>
      match foldArgList diff p args with
      | none => none
      | some (args, p) => some (.mk span callee args, p)

/-- `fold_call_expr` (lib.rs lines 168-479): capture mode when the
flag is set (lines 169-183), otherwise fold the children first (line
184) and run the loader-call recognition and rewrite. -/
def foldCallExpr (diff : String → String → Option String)
    (p : NextDynamicPatcher) (c : CallExpr) :
    Option (CallExpr × NextDynamicPatcher) :=
  if p.is_next_dynamic_first_arg then
    captureCallExpr p c
  else
    match foldCallChildren diff p c with
    | none => none
    | some (c, p) => rewriteLoaderCall diff p c

end

/-- `fold_import_decl` (lib.rs lines 151-166): record the local name of
every default specifier imported from `next/dynamic`. -/
def fold_import_decl (p : NextDynamicPatcher) (decl : ImportDecl) :
    ImportDecl × NextDynamicPatcher :=
  if decl.src.value == "next/dynamic" then
    (decl,
     { p with dynamic_bindings := p.dynamic_bindings ++
        decl.specifiers.filterMap fun s =>
          match s with
          | .default default_specifier => some default_specifier.to_id
          | _ => none })
  else (decl, p)

/-- The default children traversal of a module-item list. -/
def foldItemList (diff : String → String → Option String)
    (p : NextDynamicPatcher) :
    List ModuleItem → Option (List ModuleItem × NextDynamicPatcher)
  | [] => some ([], p)
  | .stmt (.exprStmt span e) :: rest =>
    match foldExpr diff p e with
    | none => none
    | some (e, p) =>
      match foldItemList diff p rest with
      | none => none
      | some (rest, p) => some (.stmt (.exprStmt span e) :: rest, p)
  | .moduleDecl (.importDecl d) :: rest =>
    let (d, p) := fold_import_decl p d
    match foldItemList diff p rest with
    | none => none
    | some (rest, p) => some (.moduleDecl (.importDecl d) :: rest, p)

/-- The four-variant drain loop of lib.rs lines 528-644: the statements
emitted for the queued pending imports, in FIFO order (a marker
statement followed by one import declaration per record). -/
def buildTurbopackItems (dynamic_transition_name : String) :
    List TurbopackImport → List ModuleItem
  | [] => []
  | .developmentTransition id_ident chunks_ident specifier :: rest =>
    .stmt (.exprStmt DUMMY_SP (.lit (.str ⟨DUMMY_SP,
      "TURBOPACK \x7b transition: " ++ dynamic_transition_name ++ " \x7d"⟩))) ::
    .moduleDecl (.importDecl ⟨DUMMY_SP,
      [.default id_ident,
       .named chunks_ident (some ⟨"chunks", DUMMY_SP, 0⟩) false],
      ⟨DUMMY_SP, specifier⟩, false⟩) ::
    buildTurbopackItems dynamic_transition_name rest
  | .developmentId id_ident specifier :: rest =>
    .stmt (.exprStmt DUMMY_SP (.lit (.str ⟨DUMMY_SP,
      "TURBOPACK \x7b chunking-type: none \x7d"⟩))) ::
    .moduleDecl (.importDecl ⟨DUMMY_SP,
      [.named id_ident (some ⟨"__turbopack_module_id__", DUMMY_SP, 0⟩) false],
      ⟨DUMMY_SP, specifier⟩, false⟩) ::
    buildTurbopackItems dynamic_transition_name rest
  | .buildTransition id_ident specifier :: rest =>
    .stmt (.exprStmt DUMMY_SP (.lit (.str ⟨DUMMY_SP,
      "TURBOPACK \x7b transition: " ++ dynamic_transition_name ++ " \x7d"⟩))) ::
    .moduleDecl (.importDecl ⟨DUMMY_SP,
      [.named id_ident (some ⟨"__turbopack_module_id__", DUMMY_SP, 0⟩) false],
      ⟨DUMMY_SP, specifier⟩, false⟩) ::
    buildTurbopackItems dynamic_transition_name rest
  | .buildId id_ident specifier :: rest =>
    .stmt (.exprStmt DUMMY_SP (.lit (.str ⟨DUMMY_SP,
      "TURBOPACK \x7b chunking-type: none \x7d"⟩))) ::
    .moduleDecl (.importDecl ⟨DUMMY_SP,
      [.named id_ident (some ⟨"__turbopack_module_id__", DUMMY_SP, 0⟩) false],
      ⟨DUMMY_SP, specifier⟩, false⟩) ::
    buildTurbopackItems dynamic_transition_name rest

/-- `maybe_add_dynamically_imported_specifier` (lib.rs lines 517-649):
in Webpack mode a no-op; in Turbopack mode take the queued imports,
convert them to statements and prepend them ahead of the items. -/
def maybe_add_dynamically_imported_specifier (p : NextDynamicPatcher)
    (items : List ModuleItem) : List ModuleItem × NextDynamicPatcher :=
  match p.state with
  | .webpack => (items, p)
  | .turbopack dynamic_transition_name imports =>
    let new_items := buildTurbopackItems dynamic_transition_name imports
    (new_items ++ items,
     { p with state := .turbopack dynamic_transition_name [] })

/-- `fold_module_items` (lib.rs lines 143-149). -/
def foldModuleItems (diff : String → String → Option String)
    (p : NextDynamicPatcher) (items : List ModuleItem) :
    Option (List ModuleItem × NextDynamicPatcher) :=
  match foldItemList diff p items with
  | none => none
  | some (items, p) => some (maybe_add_dynamically_imported_specifier p items)

/-- The pure-call helper import prepended by `fold_module`:
quote!("import \x7b __nextjs_pure \x7d from 'next/dist/build/swc/helpers';"). -/
def pure_import_item : ModuleItem :=
  .moduleDecl (.importDecl ⟨DUMMY_SP,
    [.named ⟨"__nextjs_pure", DUMMY_SP, 0⟩ none false],
    ⟨DUMMY_SP, "next/dist/build/swc/helpers"⟩, false⟩)

/-- `fold_module` (lib.rs lines 129-141); `prepend_stmt` (an swc
utility external to this crate) is modelled as list cons. -/
def fold_module (diff : String → String → Option String)
    (p : NextDynamicPatcher) (m : Module) : Option (Module × NextDynamicPatcher) :=
  match foldModuleItems diff p m.body with
  | none => none
  | some (body, p) =>
    if p.added_nextjs_pure_import then
      some ({ m with body := pure_import_item :: body }, p)
    else
      some ({ m with body := body }, p)

/-- `next_dynamic` (lib.rs lines 28-56): the initial patcher state. -/
def next_dynamic (is_development : Bool) (is_server : Bool)
    (is_rsc_server_layer : Bool) (state : NextDynamicPatcherState)
    (filename : FileName) (pages_dir : Option String) : NextDynamicPatcher :=
  { is_development := is_development
    is_server := is_server
    is_rsc_server_layer := is_rsc_server_layer
    pages_dir := pages_dir
    filename := filename
    dynamic_bindings := []
    is_next_dynamic_first_arg := false
    dynamically_imported_specifier := none
    state := state
    added_nextjs_pure_import := false
    fresh := 0
    diags := [] }


/-! ### Sample inputs used by the witness theorems -/

/-- A sample external path-diff collaborator that never finds a
relative path. -/
def diffNone : String → String → Option String := fun _ _ => none

/-- A sample external path-diff collaborator modelling
`diff_paths("pages/about.js", "pages") = Some("about.js")`. -/
def diffPages : String → String → Option String := fun file base =>
  if file == "pages/about.js" && base == "pages" then some "about.js" else none

/-- A sample patcher with the given flags and strategy state, tracking
the binding `dynamic` (context 0) as a loader import. -/
def samplePatcher (dev server rsc : Bool) (st : NextDynamicPatcherState) :
    NextDynamicPatcher :=
  { next_dynamic dev server rsc st (.real "pages/about.js") (some "pages") with
      dynamic_bindings := [("dynamic", 0)] }

/-- A sample loader call `dynamic(() => import('../components/hello'))`
written with the import call directly in argument 0. -/
def sampleImportArg : ExprOrSpread :=
  .mk none (.call (.mk 7 (.importCallee 8)
    [.mk none (.lit (.str ⟨9, "../components/hello"⟩))]))

/-- A sample options argument `{ ssr: false }`. -/
def sampleSsrFalseArg : ExprOrSpread :=
  .mk none (.object 10 [.prop (.keyValue (.ident ⟨"ssr", 11, 0⟩)
    (.lit (.bool ⟨12, false⟩)))])

/-- A sample non-capturable first argument (a plain identifier). -/
def sampleOpaqueArg : ExprOrSpread := .mk none (.ident ⟨"foo", 13, 0⟩)

/-! ### Helper lemmas about the capture-mode traversal -/


theorem setSpec_setSpec (p : NextDynamicPatcher) (a b : Option (String × Span)) :
    setSpec (setSpec p a) b = setSpec p b := rfl

theorem setSpec_chain (p p2 p3 : NextDynamicPatcher)
    (hp2 : p2 = setSpec p p2.dynamically_imported_specifier)
    (hp3 : p3 = setSpec p2 p3.dynamically_imported_specifier) :
    p3 = setSpec p p3.dynamically_imported_specifier :=
  hp3.trans ((congrArg (fun q => setSpec q p3.dynamically_imported_specifier) hp2).trans
    (setSpec_setSpec p p2.dynamically_imported_specifier p3.dynamically_imported_specifier))

theorem captureFromArg_keeps (p : NextDynamicPatcher) (a : ExprOrSpread)
    (p' : NextDynamicPatcher) (h : captureFromArg p a = some p') :
    p' = setSpec p p'.dynamically_imported_specifier := by
  unfold captureFromArg at h
  split at h
  · cases h; rfl
  · split at h
    · split at h
      · exact Option.noConfusion h
      · cases h; rfl
    · cases h; rfl
  · cases h; rfl

set_option maxHeartbeats 1000000 in
mutual

theorem captureExpr_keeps :
    ∀ (p : NextDynamicPatcher) (e : Expr) (e' : Expr) (p' : NextDynamicPatcher),
      captureExpr p e = some (e', p') →
      e' = e ∧ p' = setSpec p p'.dynamically_imported_specifier
  | p, .lit l, e', p', h => by
    simp only [captureExpr, Option.some.injEq, Prod.mk.injEq] at h
    obtain ⟨h1, h2⟩ := h
    subst h1; subst h2
    exact ⟨rfl, rfl⟩
  | p, .ident i, e', p', h => by
    simp only [captureExpr, Option.some.injEq, Prod.mk.injEq] at h
    obtain ⟨h1, h2⟩ := h
    subst h1; subst h2
    exact ⟨rfl, rfl⟩
  | p, .tpl span exprs quasis, e', p', h => by
    simp only [captureExpr] at h
    split at h
    · exact Option.noConfusion h
    · next exprs2 p2 heq =>
      simp only [Option.some.injEq, Prod.mk.injEq] at h
      obtain ⟨h1, h2⟩ := h
      subst h1; subst h2
      obtain ⟨he, hp⟩ := captureExprList_keeps p exprs exprs2 p2 heq
      subst he
      exact ⟨rfl, hp⟩
  | p, .object span props, e', p', h => by
    simp only [captureExpr] at h
    split at h
    · exact Option.noConfusion h
    · next props2 p2 heq =>
      simp only [Option.some.injEq, Prod.mk.injEq] at h
      obtain ⟨h1, h2⟩ := h
      subst h1; subst h2
      obtain ⟨he, hp⟩ := capturePropList_keeps p props props2 p2 heq
      subst he
      exact ⟨rfl, hp⟩
  | p, .array span elems, e', p', h => by
    simp only [captureExpr] at h
    split at h
    · exact Option.noConfusion h
    · next elems2 p2 heq =>
      simp only [Option.some.injEq, Prod.mk.injEq] at h
      obtain ⟨h1, h2⟩ := h
      subst h1; subst h2
      obtain ⟨he, hp⟩ := captureElemList_keeps p elems elems2 p2 heq
      subst he
      exact ⟨rfl, hp⟩
  | p, .arrow (.mk span params body is_async is_generator), e', p', h => by
    simp only [captureExpr] at h
    split at h
    · exact Option.noConfusion h
    · next body2 p2 heq =>
      simp only [Option.some.injEq, Prod.mk.injEq] at h
      obtain ⟨h1, h2⟩ := h
      subst h1; subst h2
      obtain ⟨he, hp⟩ := captureBlockStmtOrExpr_keeps p body body2 p2 heq
      subst he
      exact ⟨rfl, hp⟩
  | p, .call c, e', p', h => by
    simp only [captureExpr] at h
    split at h
    · exact Option.noConfusion h
    · next c2 p2 heq =>
      simp only [Option.some.injEq, Prod.mk.injEq] at h
      obtain ⟨h1, h2⟩ := h
      subst h1; subst h2
      obtain ⟨he, hp⟩ := captureCallExpr_keeps p c c2 p2 heq
      subst he
      exact ⟨rfl, hp⟩
  | p, .member span obj prop, e', p', h => by
    simp only [captureExpr] at h
    split at h
    · exact Option.noConfusion h
    · next obj2 p2 heq =>
      simp only [Option.some.injEq, Prod.mk.injEq] at h
      obtain ⟨h1, h2⟩ := h
      subst h1; subst h2
      obtain ⟨he, hp⟩ := captureExpr_keeps p obj obj2 p2 heq
      subst he
      exact ⟨rfl, hp⟩
  | p, .bin span op left right, e', p', h => by
    simp only [captureExpr] at h
    split at h
    · exact Option.noConfusion h
    · next left2 p2 heq =>
      split at h
      · exact Option.noConfusion h
      · next right2 p3 heq2 =>
        simp only [Option.some.injEq, Prod.mk.injEq] at h
        obtain ⟨h1, h2⟩ := h
        subst h1; subst h2
        obtain ⟨hl, hp2⟩ := captureExpr_keeps p left left2 p2 heq
        obtain ⟨hr, hp3⟩ := captureExpr_keeps p2 right right2 p3 heq2
        subst hl; subst hr
        exact ⟨rfl, setSpec_chain p p2 p3 hp2 hp3⟩

theorem captureExprList_keeps :
    ∀ (p : NextDynamicPatcher) (l : List Expr) (l' : List Expr) (p' : NextDynamicPatcher),
      captureExprList p l = some (l', p') →
      l' = l ∧ p' = setSpec p p'.dynamically_imported_specifier
  | p, [], l', p', h => by
    simp only [captureExprList, Option.some.injEq, Prod.mk.injEq] at h
    obtain ⟨h1, h2⟩ := h
    subst h1; subst h2
    exact ⟨rfl, rfl⟩
  | p, e :: rest, l', p', h => by
    simp only [captureExprList] at h
    split at h
    · exact Option.noConfusion h
    · next e2 p2 heq =>
      split at h
      · exact Option.noConfusion h
      · next rest2 p3 heq2 =>
        simp only [Option.some.injEq, Prod.mk.injEq] at h
        obtain ⟨h1, h2⟩ := h
        subst h1; subst h2
        obtain ⟨he, hp2⟩ := captureExpr_keeps p e e2 p2 heq
        obtain ⟨hr, hp3⟩ := captureExprList_keeps p2 rest rest2 p3 heq2
        subst he; subst hr
        exact ⟨rfl, setSpec_chain p p2 p3 hp2 hp3⟩

theorem capturePropList_keeps :
    ∀ (p : NextDynamicPatcher) (l : List PropOrSpread) (l' : List PropOrSpread)
      (p' : NextDynamicPatcher),
      capturePropList p l = some (l', p') →
      l' = l ∧ p' = setSpec p p'.dynamically_imported_specifier
  | p, [], l', p', h => by
    simp only [capturePropList, Option.some.injEq, Prod.mk.injEq] at h
    obtain ⟨h1, h2⟩ := h
    subst h1; subst h2
    exact ⟨rfl, rfl⟩
  | p, .prop (.keyValue key value) :: rest, l', p', h => by
    simp only [capturePropList] at h
    split at h
    · exact Option.noConfusion h
    · next v2 p2 heq =>
      split at h
      · exact Option.noConfusion h
      · next rest2 p3 heq2 =>
        simp only [Option.some.injEq, Prod.mk.injEq] at h
        obtain ⟨h1, h2⟩ := h
        subst h1; subst h2
        obtain ⟨hv, hp2⟩ := captureExpr_keeps p value v2 p2 heq
        obtain ⟨hr, hp3⟩ := capturePropList_keeps p2 rest rest2 p3 heq2
        subst hv; subst hr
        exact ⟨rfl, setSpec_chain p p2 p3 hp2 hp3⟩
  | p, .prop (.shorthand i) :: rest, l', p', h => by
    simp only [capturePropList] at h
    split at h
    · exact Option.noConfusion h
    · next rest2 p2 heq =>
      simp only [Option.some.injEq, Prod.mk.injEq] at h
      obtain ⟨h1, h2⟩ := h
      subst h1; subst h2
      obtain ⟨hr, hp⟩ := capturePropList_keeps p rest rest2 p2 heq
      subst hr
      exact ⟨rfl, hp⟩
  | p, .spread e :: rest, l', p', h => by
    simp only [capturePropList] at h
    split at h
    · exact Option.noConfusion h
    · next e2 p2 heq =>
      split at h
      · exact Option.noConfusion h
      · next rest2 p3 heq2 =>
        simp only [Option.some.injEq, Prod.mk.injEq] at h
        obtain ⟨h1, h2⟩ := h
        subst h1; subst h2
        obtain ⟨he, hp2⟩ := captureExpr_keeps p e e2 p2 heq
        obtain ⟨hr, hp3⟩ := capturePropList_keeps p2 rest rest2 p3 heq2
        subst he; subst hr
        exact ⟨rfl, setSpec_chain p p2 p3 hp2 hp3⟩

theorem captureElemList_keeps :
    ∀ (p : NextDynamicPatcher) (l : List (Option ExprOrSpread))
      (l' : List (Option ExprOrSpread)) (p' : NextDynamicPatcher),
      captureElemList p l = some (l', p') →
      l' = l ∧ p' = setSpec p p'.dynamically_imported_specifier
  | p, [], l', p', h => by
    simp only [captureElemList, Option.some.injEq, Prod.mk.injEq] at h
    obtain ⟨h1, h2⟩ := h
    subst h1; subst h2
    exact ⟨rfl, rfl⟩
  | p, none :: rest, l', p', h => by
    simp only [captureElemList] at h
    split at h
    · exact Option.noConfusion h
    · next rest2 p2 heq =>
      simp only [Option.some.injEq, Prod.mk.injEq] at h
      obtain ⟨h1, h2⟩ := h
      subst h1; subst h2
      obtain ⟨hr, hp⟩ := captureElemList_keeps p rest rest2 p2 heq
      subst hr
      exact ⟨rfl, hp⟩
  | p, some (.mk spread e) :: rest, l', p', h => by
    simp only [captureElemList] at h
    split at h
    · exact Option.noConfusion h
    · next e2 p2 heq =>
      split at h
      · exact Option.noConfusion h
      · next rest2 p3 heq2 =>
        simp only [Option.some.injEq, Prod.mk.injEq] at h
        obtain ⟨h1, h2⟩ := h
        subst h1; subst h2
        obtain ⟨he, hp2⟩ := captureExpr_keeps p e e2 p2 heq
        obtain ⟨hr, hp3⟩ := captureElemList_keeps p2 rest rest2 p3 heq2
        subst he; subst hr
        exact ⟨rfl, setSpec_chain p p2 p3 hp2 hp3⟩

theorem captureBlockStmtOrExpr_keeps :
    ∀ (p : NextDynamicPatcher) (b : BlockStmtOrExpr) (b' : BlockStmtOrExpr)
      (p' : NextDynamicPatcher),
      captureBlockStmtOrExpr p b = some (b', p') →
      b' = b ∧ p' = setSpec p p'.dynamically_imported_specifier
  | p, .blockStmt span stmts, b', p', h => by
    simp only [captureBlockStmtOrExpr] at h
    split at h
    · exact Option.noConfusion h
    · next stmts2 p2 heq =>
      simp only [Option.some.injEq, Prod.mk.injEq] at h
      obtain ⟨h1, h2⟩ := h
      subst h1; subst h2
      obtain ⟨hs, hp⟩ := captureStmtList_keeps p stmts stmts2 p2 heq
      subst hs
      exact ⟨rfl, hp⟩
  | p, .expr e, b', p', h => by
    simp only [captureBlockStmtOrExpr] at h
    split at h
    · exact Option.noConfusion h
    · next e2 p2 heq =>
      simp only [Option.some.injEq, Prod.mk.injEq] at h
      obtain ⟨h1, h2⟩ := h
      subst h1; subst h2
      obtain ⟨he, hp⟩ := captureExpr_keeps p e e2 p2 heq
      subst he
      exact ⟨rfl, hp⟩

theorem captureStmtList_keeps :
    ∀ (p : NextDynamicPatcher) (l : List Stmt) (l' : List Stmt) (p' : NextDynamicPatcher),
      captureStmtList p l = some (l', p') →
      l' = l ∧ p' = setSpec p p'.dynamically_imported_specifier
  | p, [], l', p', h => by
    simp only [captureStmtList, Option.some.injEq, Prod.mk.injEq] at h
    obtain ⟨h1, h2⟩ := h
    subst h1; subst h2
    exact ⟨rfl, rfl⟩
  | p, .exprStmt span e :: rest, l', p', h => by
    simp only [captureStmtList] at h
    split at h
    · exact Option.noConfusion h
    · next e2 p2 heq =>
      split at h
      · exact Option.noConfusion h
      · next rest2 p3 heq2 =>
        simp only [Option.some.injEq, Prod.mk.injEq] at h
        obtain ⟨h1, h2⟩ := h
        subst h1; subst h2
        obtain ⟨he, hp2⟩ := captureExpr_keeps p e e2 p2 heq
        obtain ⟨hr, hp3⟩ := captureStmtList_keeps p2 rest rest2 p3 heq2
        subst he; subst hr
        exact ⟨rfl, setSpec_chain p p2 p3 hp2 hp3⟩

theorem captureCallee_keeps :
    ∀ (p : NextDynamicPatcher) (cal : Callee) (cal' : Callee) (p' : NextDynamicPatcher),
      captureCallee p cal = some (cal', p') →
      cal' = cal ∧ p' = setSpec p p'.dynamically_imported_specifier
  | p, .importCallee span, cal', p', h => by
    simp only [captureCallee, Option.some.injEq, Prod.mk.injEq] at h
    obtain ⟨h1, h2⟩ := h
    subst h1; subst h2
    exact ⟨rfl, rfl⟩
  | p, .superCallee span, cal', p', h => by
    simp only [captureCallee, Option.some.injEq, Prod.mk.injEq] at h
    obtain ⟨h1, h2⟩ := h
    subst h1; subst h2
    exact ⟨rfl, rfl⟩
  | p, .expr e, cal', p', h => by
    simp only [captureCallee] at h
    split at h
    · exact Option.noConfusion h
    · next e2 p2 heq =>
      simp only [Option.some.injEq, Prod.mk.injEq] at h
      obtain ⟨h1, h2⟩ := h
      subst h1; subst h2
      obtain ⟨he, hp⟩ := captureExpr_keeps p e e2 p2 heq
      subst he
      exact ⟨rfl, hp⟩

theorem captureArgList_keeps :
    ∀ (p : NextDynamicPatcher) (l : List ExprOrSpread) (l' : List ExprOrSpread)
      (p' : NextDynamicPatcher),
      captureArgList p l = some (l', p') →
      l' = l ∧ p' = setSpec p p'.dynamically_imported_specifier
  | p, [], l', p', h => by
    simp only [captureArgList, Option.some.injEq, Prod.mk.injEq] at h
    obtain ⟨h1, h2⟩ := h
    subst h1; subst h2
    exact ⟨rfl, rfl⟩
  | p, .mk spread e :: rest, l', p', h => by
    simp only [captureArgList] at h
    split at h
    · exact Option.noConfusion h
    · next e2 p2 heq =>
      split at h
      · exact Option.noConfusion h
      · next rest2 p3 heq2 =>
        simp only [Option.some.injEq, Prod.mk.injEq] at h
        obtain ⟨h1, h2⟩ := h
        subst h1; subst h2
        obtain ⟨he, hp2⟩ := captureExpr_keeps p e e2 p2 heq
        obtain ⟨hr, hp3⟩ := captureArgList_keeps p2 rest rest2 p3 heq2
        subst he; subst hr
        exact ⟨rfl, setSpec_chain p p2 p3 hp2 hp3⟩

theorem captureCallChildren_keeps :
    ∀ (p : NextDynamicPatcher) (c : CallExpr) (c' : CallExpr) (p' : NextDynamicPatcher),
      captureCallChildren p c = some (c', p') →
      c' = c ∧ p' = setSpec p p'.dynamically_imported_specifier
  | p, .mk span callee args, c', p', h => by
    simp only [captureCallChildren] at h
    split at h
    · exact Option.noConfusion h
    · next callee2 p2 heq =>
      split at h
      · exact Option.noConfusion h
      · next args2 p3 heq2 =>
        simp only [Option.some.injEq, Prod.mk.injEq] at h
        obtain ⟨h1, h2⟩ := h
        subst h1; subst h2
        obtain ⟨hc, hp2⟩ := captureCallee_keeps p callee callee2 p2 heq
        obtain ⟨ha, hp3⟩ := captureArgList_keeps p2 args args2 p3 heq2
        subst hc; subst ha
        exact ⟨rfl, setSpec_chain p p2 p3 hp2 hp3⟩

theorem captureCallExpr_keeps :
    ∀ (p : NextDynamicPatcher) (c : CallExpr) (c' : CallExpr) (p' : NextDynamicPatcher),
      captureCallExpr p c = some (c', p') →
      c' = c ∧ p' = setSpec p p'.dynamically_imported_specifier
  | p, c, c', p', h => by
    simp only [captureCallExpr] at h
    split at h
    · exact Option.noConfusion h
    · next p2 heq =>
      obtain ⟨hc, hp⟩ := captureCallChildren_keeps p2 c c' p' h
      refine ⟨hc, setSpec_chain p p2 p' ?_ hp⟩
      split at heq
      · split at heq
        · exact Option.noConfusion heq
        · next a ha =>
          exact captureFromArg_keeps p a p2 heq
      · cases heq; rfl

end

end NextDynamic

namespace NextDynamic

/-- C9: the relative-filename utility returns the opaque string form
when no base directory is given or the location is not a real path,
the absolute display form when no relative path exists, and the
relative path's display form otherwise. -/
theorem claim_rel_filename (diff : String → String → Option String) :
    (∀ file : FileName, rel_filename diff none file = file.toStr) ∧
    (∀ base s, rel_filename diff (some base) (.custom s) = (FileName.custom s).toStr) ∧
    (∀ base v, diff v base = none → rel_filename diff (some base) (.real v) = v) ∧
    (∀ base v r, diff v base = some r → rel_filename diff (some base) (.real v) = r) := by
  refine ⟨fun file => rfl, fun base s => rfl, fun base v h => ?_, fun base v r h => ?_⟩
  · simp [rel_filename, h]
  · simp [rel_filename, h]

/-- Witness for C9 at concrete inputs. -/
theorem claim_rel_filename_witness :
    rel_filename diffNone none (.custom "input.js") = "input.js" ∧
    rel_filename diffNone (some "pages") (.custom "input.js") = "input.js" ∧
    (diffNone "/a/x.js" "/b" = none ∧
      rel_filename diffNone (some "/b") (.real "/a/x.js") = "/a/x.js") ∧
    (diffPages "pages/about.js" "pages" = some "about.js" ∧
      rel_filename diffPages (some "pages") (.real "pages/about.js") = "about.js") :=
  ⟨(claim_rel_filename diffNone).1 _,
   (claim_rel_filename diffNone).2.1 _ _,
   ⟨rfl, (claim_rel_filename diffNone).2.2.1 "/b" "/a/x.js" rfl⟩,
   ⟨by decide, (claim_rel_filename diffPages).2.2.2 "pages" "pages/about.js" "about.js" (by decide)⟩⟩

/-- C1: in Webpack (simple) mode, the generated loadableGenerated
object has the single key `modules` with the one-element array holding
the concatenation "relativeFilename -> " + specifier when the
development or server flag is set, and otherwise the single key
`webpack` with a zero-argument arrow returning a one-element array
holding `require.resolveWeak(specifier)`. -/
theorem claim_webpack_generated (diff : String → String → Option String)
    (p : NextDynamicPatcher) (specifier : String) (sp : Span)
    (h : p.state = .webpack) :
    buildGenerated diff p specifier sp =
      if p.is_development || p.is_server then
        (.object DUMMY_SP [.prop (.keyValue (.ident ⟨"modules", DUMMY_SP, 0⟩)
          (.array DUMMY_SP [some (.mk none (.bin DUMMY_SP "+"
            (.lit (.str ⟨DUMMY_SP, rel_filename diff p.pages_dir p.filename ++ " -> "⟩))
            (.lit (.str ⟨DUMMY_SP, specifier⟩))))]))], p)
      else
        (.object DUMMY_SP [.prop (.keyValue (.ident ⟨"webpack", DUMMY_SP, 0⟩)
          (.arrow (.mk DUMMY_SP [] (.expr (.array DUMMY_SP [some (.mk none
            (.call (.mk DUMMY_SP
              (.expr (.member DUMMY_SP (.ident ⟨"require", DUMMY_SP, 0⟩) "resolveWeak"))
              [.mk none (.lit (.str ⟨DUMMY_SP, specifier⟩))])))])) false false)))], p) := by
  unfold buildGenerated module_id_options webpack_options
  rw [h]

/-- Witness for C1: the development-server shape at the spec's example
inputs (filename `pages/about.js` relative to base `pages`), and the
production-client shape. -/
theorem claim_webpack_generated_witness :
    ((samplePatcher true true false .webpack).state = .webpack ∧
      buildGenerated diffPages (samplePatcher true true false .webpack)
          "../components/hello" 9 =
        (.object DUMMY_SP [.prop (.keyValue (.ident ⟨"modules", DUMMY_SP, 0⟩)
          (.array DUMMY_SP [some (.mk none (.bin DUMMY_SP "+"
            (.lit (.str ⟨DUMMY_SP, "about.js -> "⟩))
            (.lit (.str ⟨DUMMY_SP, "../components/hello"⟩))))]))],
         samplePatcher true true false .webpack)) ∧
    ((samplePatcher false false false .webpack).state = .webpack ∧
      buildGenerated diffPages (samplePatcher false false false .webpack)
          "../components/hello" 9 =
        (.object DUMMY_SP [.prop (.keyValue (.ident ⟨"webpack", DUMMY_SP, 0⟩)
          (.arrow (.mk DUMMY_SP [] (.expr (.array DUMMY_SP [some (.mk none
            (.call (.mk DUMMY_SP
              (.expr (.member DUMMY_SP (.ident ⟨"require", DUMMY_SP, 0⟩) "resolveWeak"))
              [.mk none (.lit (.str ⟨DUMMY_SP, "../components/hello"⟩))])))])) false false)))],
         samplePatcher false false false .webpack)) :=
  ⟨⟨rfl, (claim_webpack_generated diffPages (samplePatcher true true false .webpack)
      "../components/hello" 9 rfl).trans rfl⟩,
   ⟨rfl, (claim_webpack_generated diffPages (samplePatcher false false false .webpack)
      "../components/hello" 9 rfl).trans rfl⟩⟩

end NextDynamic

namespace NextDynamic

/-- C2: in chunked (Turbopack) mode, a rewritten loader call appends
exactly one pending-import record: for (development, server) =
(true, true) a fresh id identifier and a fresh chunks identifier are
queued as a transition import and the generated `modules` value is a
`JSON.stringify({id, chunks})` call; (true, false) and (false, false)
queue an id-only chunking-exempt record; (false, true) queues an
id-only transition record; in those three cases the generated
`modules` value is the fresh identifier itself. -/
theorem claim_turbopack_generated (diff : String → String → Option String)
    (p : NextDynamicPatcher) (specifier : String) (sp : Span)
    (name : String) (imps : List TurbopackImport)
    (h : p.state = .turbopack name imps) :
    buildGenerated diff p specifier sp =
      match p.is_development, p.is_server with
      | true, true =>
        (.object DUMMY_SP [.prop (.keyValue (.ident ⟨"modules", DUMMY_SP, 0⟩)
          (.array DUMMY_SP [some (.mk none (.call (.mk DUMMY_SP
            (.expr (.member DUMMY_SP (.ident ⟨"JSON", DUMMY_SP, 0⟩) "stringify"))
            [.mk none (.object DUMMY_SP
              [.prop (.keyValue (.ident ⟨"id", DUMMY_SP, 0⟩)
                (.ident ⟨"id", sp, p.fresh + 1⟩)),
               .prop (.keyValue (.ident ⟨"chunks", DUMMY_SP, 0⟩)
                (.ident ⟨"chunks", sp, p.fresh + 2⟩))])])))]))],
         { p with
            state := .turbopack name (imps ++
              [.developmentTransition ⟨"id", sp, p.fresh + 1⟩
                ⟨"chunks", sp, p.fresh + 2⟩ specifier]),
            fresh := p.fresh + 2 })
      | true, false =>
        (.object DUMMY_SP [.prop (.keyValue (.ident ⟨"modules", DUMMY_SP, 0⟩)
          (.array DUMMY_SP [some (.mk none (.ident ⟨"id", sp, p.fresh + 1⟩))]))],
         { p with
            state := .turbopack name (imps ++
              [.developmentId ⟨"id", sp, p.fresh + 1⟩ specifier]),
            fresh := p.fresh + 1 })
      | false, true =>
        (.object DUMMY_SP [.prop (.keyValue (.ident ⟨"modules", DUMMY_SP, 0⟩)
          (.array DUMMY_SP [some (.mk none (.ident ⟨"id", sp, p.fresh + 2⟩))]))],
         { p with
            state := .turbopack name (imps ++
              [.buildTransition ⟨"id", sp, p.fresh + 2⟩ specifier]),
            fresh := p.fresh + 2 })
      | false, false =>
        (.object DUMMY_SP [.prop (.keyValue (.ident ⟨"modules", DUMMY_SP, 0⟩)
          (.array DUMMY_SP [some (.mk none (.ident ⟨"id", sp, p.fresh + 2⟩))]))],
         { p with
            state := .turbopack name (imps ++
              [.buildId ⟨"id", sp, p.fresh + 2⟩ specifier]),
            fresh := p.fresh + 2 }) := by
  obtain ⟨dev, server, rsc, pd, fn, db, flag, spc, st, add, fr, dg⟩ := p
  cases st with
  | webpack => exact absurd h (by simp)
  | turbopack nm im =>
    have h' : NextDynamicPatcherState.turbopack nm im = .turbopack name imps := h
    injection h' with h1 h2
    subst h1; subst h2
    cases dev <;> cases server <;> rfl

/-- Witness for C2: the development-server case at a concrete patcher
(fresh counter 0, empty queue). -/
theorem claim_turbopack_generated_witness :
    (samplePatcher true true false (.turbopack "next_dynamic" [])).state =
      .turbopack "next_dynamic" [] ∧
    buildGenerated diffNone (samplePatcher true true false (.turbopack "next_dynamic" []))
        "../components/hello" 9 =
      (.object DUMMY_SP [.prop (.keyValue (.ident ⟨"modules", DUMMY_SP, 0⟩)
        (.array DUMMY_SP [some (.mk none (.call (.mk DUMMY_SP
          (.expr (.member DUMMY_SP (.ident ⟨"JSON", DUMMY_SP, 0⟩) "stringify"))
          [.mk none (.object DUMMY_SP
            [.prop (.keyValue (.ident ⟨"id", DUMMY_SP, 0⟩) (.ident ⟨"id", 9, 1⟩)),
             .prop (.keyValue (.ident ⟨"chunks", DUMMY_SP, 0⟩)
              (.ident ⟨"chunks", 9, 2⟩))])])))]))],
       { samplePatcher true true false (.turbopack "next_dynamic" []) with
          state := .turbopack "next_dynamic"
            [.developmentTransition ⟨"id", 9, 1⟩ ⟨"chunks", 9, 2⟩ "../components/hello"],
          fresh := 2 }) :=
  ⟨rfl,
   (claim_turbopack_generated diffNone
     (samplePatcher true true false (.turbopack "next_dynamic" []))
     "../components/hello" 9 "next_dynamic" [] rfl).trans rfl⟩

/-- C10 (amended): in specifier-capture mode, for a call whose callee
is the dynamic import operator, the index-0 access of the argument
list is in bounds whenever the call has at least one argument and the
pass proceeds to the capture step and the children fold; on a
zero-argument import call the access is out of bounds (a panic,
modelled as `none`). -/
theorem claim_capture_index (p : NextDynamicPatcher) (sp isp : Span) :
    (captureCallExpr p (.mk sp (.importCallee isp) []) = none) ∧
    (∀ (a : ExprOrSpread) (rest : List ExprOrSpread),
      captureCallExpr p (.mk sp (.importCallee isp) (a :: rest)) =
        match captureFromArg p a with
        | none => none
        | some p2 => captureCallChildren p2 (.mk sp (.importCallee isp) (a :: rest))) := by
  constructor
  · simp [captureCallExpr, CallExpr.callee, CallExpr.args]
  · intro a rest
    simp only [captureCallExpr, CallExpr.callee, CallExpr.args, List.get?]

/-- Counterexample for C10 as stated: on a dynamic import call written
with zero arguments, the capture-mode pass does panic (the index-0
access is out of bounds). -/
theorem claim_capture_index_cex :
    captureCallExpr (samplePatcher true true false .webpack)
      (.mk 1 (.importCallee 2) []) = none := by
  simp [captureCallExpr, CallExpr.callee, CallExpr.args]

end NextDynamic

namespace NextDynamic

/-- C4: a loader call that fails validation (zero arguments, more than
two arguments, or a second argument that is not an object literal)
emits exactly one diagnostic with the corresponding message, is
returned unmodified (same argument list), and the pass completes
(the result is `some`, not a panic). -/
theorem claim_validation_diagnostics (diff : String → String → Option String)
    (p : NextDynamicPatcher) (span : Span) (identifier : Ident)
    (args : List ExprOrSpread)
    (hmem : p.dynamic_bindings.contains identifier.to_id = true) :
    (args = [] →
      rewriteLoaderCall diff p (.mk span (.expr (.ident identifier)) args) =
        some (.mk span (.expr (.ident identifier)) args,
          { p with diags := p.diags ++
            [(identifier.span, "next/dynamic requires at least one argument")] })) ∧
    (args.length > 2 →
      rewriteLoaderCall diff p (.mk span (.expr (.ident identifier)) args) =
        some (.mk span (.expr (.ident identifier)) args,
          { p with diags := p.diags ++
            [(identifier.span, "next/dynamic only accepts 2 arguments")] })) ∧
    (∀ a1, args.length = 2 → args.get? 1 = some a1 → a1.expr.isObjectLit = false →
      rewriteLoaderCall diff p (.mk span (.expr (.ident identifier)) args) =
        some (.mk span (.expr (.ident identifier)) args,
          { p with diags := p.diags ++
            [(identifier.span, "next/dynamic options must be an object literal.\nRead more: https://nextjs.org/docs/messages/invalid-dynamic-options-type")] })) := by
  refine ⟨fun hargs => ?_, fun hlen => ?_, fun a1 hlen hget hshape => ?_⟩
  · subst hargs
    simp only [rewriteLoaderCall, CallExpr.callee, CallExpr.args]
    rw [if_pos hmem]
    simp [emitDiag]
  · cases args with
    | nil => simp at hlen
    | cons a rest =>
      simp only [rewriteLoaderCall, CallExpr.callee, CallExpr.args]
      rw [if_pos hmem]
      simp only [List.isEmpty_cons, Bool.false_eq_true, if_false]
      rw [if_pos hlen]
      simp [emitDiag]
  · have hnotgt : ¬ args.length > 2 := by omega
    have hshapeErr : optionsShapeError args = true := by
      unfold optionsShapeError
      rw [hget]
      simp [hlen, hshape]
    cases args with
    | nil => simp at hlen
    | cons a rest =>
      simp only [rewriteLoaderCall, CallExpr.callee, CallExpr.args]
      rw [if_pos hmem]
      simp only [List.isEmpty_cons, Bool.false_eq_true, if_false]
      rw [if_neg hnotgt, if_pos hshapeErr]
      simp [emitDiag]

/-- Witness for C4: the three failure shapes at concrete calls. -/
theorem claim_validation_diagnostics_witness :
    ((samplePatcher true true false .webpack).dynamic_bindings.contains
        (Ident.to_id ⟨"dynamic", 21, 0⟩) = true) ∧
    rewriteLoaderCall diffNone (samplePatcher true true false .webpack)
        (.mk 20 (.expr (.ident ⟨"dynamic", 21, 0⟩)) []) =
      some (.mk 20 (.expr (.ident ⟨"dynamic", 21, 0⟩)) [],
        { samplePatcher true true false .webpack with diags :=
          [(21, "next/dynamic requires at least one argument")] }) ∧
    rewriteLoaderCall diffNone (samplePatcher true true false .webpack)
        (.mk 20 (.expr (.ident ⟨"dynamic", 21, 0⟩))
          [sampleOpaqueArg, sampleOpaqueArg, sampleOpaqueArg]) =
      some (.mk 20 (.expr (.ident ⟨"dynamic", 21, 0⟩))
          [sampleOpaqueArg, sampleOpaqueArg, sampleOpaqueArg],
        { samplePatcher true true false .webpack with diags :=
          [(21, "next/dynamic only accepts 2 arguments")] }) ∧
    rewriteLoaderCall diffNone (samplePatcher true true false .webpack)
        (.mk 20 (.expr (.ident ⟨"dynamic", 21, 0⟩))
          [sampleOpaqueArg, sampleOpaqueArg]) =
      some (.mk 20 (.expr (.ident ⟨"dynamic", 21, 0⟩))
          [sampleOpaqueArg, sampleOpaqueArg],
        { samplePatcher true true false .webpack with diags :=
          [(21, "next/dynamic options must be an object literal.\nRead more: https://nextjs.org/docs/messages/invalid-dynamic-options-type")] }) := by
  refine ⟨rfl, ?_, ?_, ?_⟩
  · exact ((claim_validation_diagnostics diffNone (samplePatcher true true false .webpack)
      20 ⟨"dynamic", 21, 0⟩ [] rfl).1 rfl).trans rfl
  · exact ((claim_validation_diagnostics diffNone (samplePatcher true true false .webpack)
      20 ⟨"dynamic", 21, 0⟩ [sampleOpaqueArg, sampleOpaqueArg, sampleOpaqueArg] rfl).2.1
      (by simp)).trans rfl
  · exact ((claim_validation_diagnostics diffNone (samplePatcher true true false .webpack)
      20 ⟨"dynamic", 21, 0⟩ [sampleOpaqueArg, sampleOpaqueArg] rfl).2.2 sampleOpaqueArg
      rfl rfl rfl).trans rfl

/-- C5: the Import Injector leaves the item list (and state) unchanged
in Webpack mode; in Turbopack mode it drains the pending-import queue
to empty and prepends, in FIFO order, one marker statement immediately
followed by one import declaration per record, ahead of the existing
items (whose relative order is preserved by the concatenation). -/
theorem claim_import_injector (p : NextDynamicPatcher) (items : List ModuleItem) :
    (p.state = .webpack →
      maybe_add_dynamically_imported_specifier p items = (items, p)) ∧
    (∀ name imps, p.state = .turbopack name imps →
      maybe_add_dynamically_imported_specifier p items =
        (buildTurbopackItems name imps ++ items,
         { p with state := .turbopack name [] })) ∧
    (∀ name idI chI spec rest,
      buildTurbopackItems name (.developmentTransition idI chI spec :: rest) =
        .stmt (.exprStmt DUMMY_SP (.lit (.str ⟨DUMMY_SP,
          "TURBOPACK \x7b transition: " ++ name ++ " \x7d"⟩))) ::
        .moduleDecl (.importDecl ⟨DUMMY_SP,
          [.default idI, .named chI (some ⟨"chunks", DUMMY_SP, 0⟩) false],
          ⟨DUMMY_SP, spec⟩, false⟩) ::
        buildTurbopackItems name rest) ∧
    (∀ name idI spec rest,
      buildTurbopackItems name (.developmentId idI spec :: rest) =
        .stmt (.exprStmt DUMMY_SP (.lit (.str ⟨DUMMY_SP,
          "TURBOPACK \x7b chunking-type: none \x7d"⟩))) ::
        .moduleDecl (.importDecl ⟨DUMMY_SP,
          [.named idI (some ⟨"__turbopack_module_id__", DUMMY_SP, 0⟩) false],
          ⟨DUMMY_SP, spec⟩, false⟩) ::
        buildTurbopackItems name rest) ∧
    (∀ name idI spec rest,
      buildTurbopackItems name (.buildTransition idI spec :: rest) =
        .stmt (.exprStmt DUMMY_SP (.lit (.str ⟨DUMMY_SP,
          "TURBOPACK \x7b transition: " ++ name ++ " \x7d"⟩))) ::
        .moduleDecl (.importDecl ⟨DUMMY_SP,
          [.named idI (some ⟨"__turbopack_module_id__", DUMMY_SP, 0⟩) false],
          ⟨DUMMY_SP, spec⟩, false⟩) ::
        buildTurbopackItems name rest) ∧
    (∀ name idI spec rest,
      buildTurbopackItems name (.buildId idI spec :: rest) =
        .stmt (.exprStmt DUMMY_SP (.lit (.str ⟨DUMMY_SP,
          "TURBOPACK \x7b chunking-type: none \x7d"⟩))) ::
        .moduleDecl (.importDecl ⟨DUMMY_SP,
          [.named idI (some ⟨"__turbopack_module_id__", DUMMY_SP, 0⟩) false],
          ⟨DUMMY_SP, spec⟩, false⟩) ::
        buildTurbopackItems name rest) := by
  refine ⟨fun h => ?_, fun name imps h => ?_,
    fun name idI chI spec rest => rfl, fun name idI spec rest => rfl,
    fun name idI spec rest => rfl, fun name idI spec rest => rfl⟩
  · simp [maybe_add_dynamically_imported_specifier, h]
  · simp [maybe_add_dynamically_imported_specifier, h]

/-- Witness for C5: a Webpack-mode no-op and a Turbopack-mode drain at
a two-record queue. -/
theorem claim_import_injector_witness :
    ((samplePatcher true true false .webpack).state = .webpack ∧
      maybe_add_dynamically_imported_specifier (samplePatcher true true false .webpack)
          [pure_import_item] =
        ([pure_import_item], samplePatcher true true false .webpack)) ∧
    ((samplePatcher true true false (.turbopack "next_dynamic"
        [.developmentTransition ⟨"id", 9, 1⟩ ⟨"chunks", 9, 2⟩ "./a",
         .buildId ⟨"id", 9, 3⟩ "./b"])).state = .turbopack "next_dynamic"
        [.developmentTransition ⟨"id", 9, 1⟩ ⟨"chunks", 9, 2⟩ "./a",
         .buildId ⟨"id", 9, 3⟩ "./b"] ∧
      maybe_add_dynamically_imported_specifier
          (samplePatcher true true false (.turbopack "next_dynamic"
            [.developmentTransition ⟨"id", 9, 1⟩ ⟨"chunks", 9, 2⟩ "./a",
             .buildId ⟨"id", 9, 3⟩ "./b"]))
          [pure_import_item] =
        ([.stmt (.exprStmt DUMMY_SP (.lit (.str ⟨DUMMY_SP,
            "TURBOPACK \x7b transition: next_dynamic \x7d"⟩))),
          .moduleDecl (.importDecl ⟨DUMMY_SP,
            [.default ⟨"id", 9, 1⟩, .named ⟨"chunks", 9, 2⟩ (some ⟨"chunks", DUMMY_SP, 0⟩) false],
            ⟨DUMMY_SP, "./a"⟩, false⟩),
          .stmt (.exprStmt DUMMY_SP (.lit (.str ⟨DUMMY_SP,
            "TURBOPACK \x7b chunking-type: none \x7d"⟩))),
          .moduleDecl (.importDecl ⟨DUMMY_SP,
            [.named ⟨"id", 9, 3⟩ (some ⟨"__turbopack_module_id__", DUMMY_SP, 0⟩) false],
            ⟨DUMMY_SP, "./b"⟩, false⟩),
          pure_import_item],
         { samplePatcher true true false (.turbopack "next_dynamic"
            [.developmentTransition ⟨"id", 9, 1⟩ ⟨"chunks", 9, 2⟩ "./a",
             .buildId ⟨"id", 9, 3⟩ "./b"]) with
            state := .turbopack "next_dynamic" [] })) :=
  ⟨⟨rfl, (claim_import_injector (samplePatcher true true false .webpack)
      [pure_import_item]).1 rfl⟩,
   ⟨rfl, ((claim_import_injector (samplePatcher true true false (.turbopack "next_dynamic"
      [.developmentTransition ⟨"id", 9, 1⟩ ⟨"chunks", 9, 2⟩ "./a",
       .buildId ⟨"id", 9, 3⟩ "./b"])) [pure_import_item]).2.1 "next_dynamic"
      [.developmentTransition ⟨"id", 9, 1⟩ ⟨"chunks", 9, 2⟩ "./a",
       .buildId ⟨"id", 9, 3⟩ "./b"] rfl).trans rfl⟩⟩

end NextDynamic

namespace NextDynamic

/-- C7: a validated loader call whose first argument yields no captured
specifier is aborted silently: the call is returned with its (already
children-folded) arguments intact, no diagnostic is emitted, no
metadata is injected and no pending import is queued — the only state
change is clearing the transient capture fields. -/
theorem claim_silent_abort (diff : String → String → Option String)
    (p : NextDynamicPatcher) (span : Span) (identifier : Ident)
    (a0 : ExprOrSpread) (argsRest : List ExprOrSpread)
    (e2 : Expr) (p2 : NextDynamicPatcher)
    (hmem : p.dynamic_bindings.contains identifier.to_id = true)
    (hlen : ¬ (a0 :: argsRest).length > 2)
    (hshape : optionsShapeError (a0 :: argsRest) = false)
    (hcap : captureExpr { p with is_next_dynamic_first_arg := true } a0.expr =
      some (e2, p2))
    (hnone : p2.dynamically_imported_specifier = none) :
    rewriteLoaderCall diff p (.mk span (.expr (.ident identifier)) (a0 :: argsRest)) =
      some (.mk span (.expr (.ident identifier)) (a0 :: argsRest),
        { p with is_next_dynamic_first_arg := false,
                 dynamically_imported_specifier := none }) ∧
    ({ p with is_next_dynamic_first_arg := false,
              dynamically_imported_specifier := none } :
        NextDynamicPatcher).diags = p.diags ∧
    ({ p with is_next_dynamic_first_arg := false,
              dynamically_imported_specifier := none } :
        NextDynamicPatcher).state = p.state := by
  obtain ⟨spr, a0e⟩ := a0
  simp only [ExprOrSpread.expr] at hcap
  obtain ⟨he, hp⟩ := captureExpr_keeps _ _ _ _ hcap
  subst he
  refine ⟨?_, rfl, rfl⟩
  simp only [rewriteLoaderCall, CallExpr.callee, CallExpr.args, CallExpr.span]
  rw [if_pos hmem]
  simp only [List.isEmpty_cons, Bool.false_eq_true, if_false]
  rw [if_neg hlen, if_neg (by simp [hshape])]
  simp only [rewriteCore, ExprOrSpread.expr, ExprOrSpread.spread]
  rw [hcap]
  simp only [hnone]
  rw [hp]
  rfl

/-- Witness for C7: a loader call whose first argument is a plain
identifier captures nothing and is left alone. -/
theorem claim_silent_abort_witness :
    rewriteLoaderCall diffNone (samplePatcher true true false .webpack)
        (.mk 20 (.expr (.ident ⟨"dynamic", 21, 0⟩)) [sampleOpaqueArg]) =
      some (.mk 20 (.expr (.ident ⟨"dynamic", 21, 0⟩)) [sampleOpaqueArg],
        { samplePatcher true true false .webpack with
            is_next_dynamic_first_arg := false,
            dynamically_imported_specifier := none }) ∧
    ({ samplePatcher true true false .webpack with
        is_next_dynamic_first_arg := false,
        dynamically_imported_specifier := none } :
      NextDynamicPatcher).diags = (samplePatcher true true false .webpack).diags ∧
    ({ samplePatcher true true false .webpack with
        is_next_dynamic_first_arg := false,
        dynamically_imported_specifier := none } :
      NextDynamicPatcher).state = (samplePatcher true true false .webpack).state :=
  claim_silent_abort diffNone (samplePatcher true true false .webpack) 20
    ⟨"dynamic", 21, 0⟩ sampleOpaqueArg [] (.ident ⟨"foo", 13, 0⟩)
    { samplePatcher true true false .webpack with is_next_dynamic_first_arg := true }
    rfl (by simp) rfl (by simp [captureExpr, sampleOpaqueArg, ExprOrSpread.expr]) rfl

/-- C8: the literal specifier of a dynamic import in the first argument
is captured pre-order — the specifier is recorded from the import
call's own argument before the children of that call are traversed —
and the capture-mode pass never rewrites the subtree it walks. -/
theorem claim_preorder_capture :
    (∀ (p : NextDynamicPatcher) (sp isp ssp : Span) (spr : Option Span)
       (v : String) (rest : List ExprOrSpread),
      captureCallExpr p (.mk sp (.importCallee isp)
          (.mk spr (.lit (.str ⟨ssp, v⟩)) :: rest)) =
        captureCallChildren (setSpec p (some (v, ssp)))
          (.mk sp (.importCallee isp) (.mk spr (.lit (.str ⟨ssp, v⟩)) :: rest))) ∧
    (∀ (p : NextDynamicPatcher) (e e' : Expr) (p' : NextDynamicPatcher),
      captureExpr p e = some (e', p') → e' = e) := by
  constructor
  · intro p sp isp ssp spr v rest
    simp only [captureCallExpr, CallExpr.callee, CallExpr.args, List.get?,
      captureFromArg, ExprOrSpread.expr]
  · intro p e e' p' h
    exact (captureExpr_keeps p e e' p' h).1

/-- Witness for C8 at the sample import call and a sample identity
fold. -/
theorem claim_preorder_capture_witness :
    (captureCallExpr (samplePatcher true true false .webpack)
        (.mk 7 (.importCallee 8) [.mk none (.lit (.str ⟨9, "../components/hello"⟩))]) =
      captureCallChildren (setSpec (samplePatcher true true false .webpack)
          (some ("../components/hello", 9)))
        (.mk 7 (.importCallee 8) [.mk none (.lit (.str ⟨9, "../components/hello"⟩))])) ∧
    (Expr.ident ⟨"foo", 13, 0⟩ = Expr.ident ⟨"foo", 13, 0⟩) :=
  ⟨claim_preorder_capture.1 (samplePatcher true true false .webpack) 7 8 9 none
      "../components/hello" [],
   claim_preorder_capture.2 (samplePatcher true true false .webpack)
      (.ident ⟨"foo", 13, 0⟩) (.ident ⟨"foo", 13, 0⟩)
      (samplePatcher true true false .webpack) (by simp [captureExpr])⟩

end NextDynamic

namespace NextDynamic

/-- The Metadata Strategy only touches the strategy state and the
fresh-identifier counter: every configuration field of the patcher is
preserved by `buildGenerated`. -/
theorem buildGenerated_fields (diff : String → String → Option String)
    (p : NextDynamicPatcher) (s : String) (sp : Span) :
    (buildGenerated diff p s sp).2.is_development = p.is_development ∧
    (buildGenerated diff p s sp).2.is_server = p.is_server ∧
    (buildGenerated diff p s sp).2.is_rsc_server_layer = p.is_rsc_server_layer ∧
    (buildGenerated diff p s sp).2.added_nextjs_pure_import = p.added_nextjs_pure_import ∧
    (buildGenerated diff p s sp).2.diags = p.diags := by
  obtain ⟨dev, server, rsc, pd, fn, db, flag, spc, st, add, fr, dg⟩ := p
  cases st <;> cases dev <;> cases server <;>
    simp [buildGenerated, private_ident]

/-- C6: a loader call carrying `ssr: false` compiled either on the
server-component layer or for the client keeps its first argument
untouched — the pure-call wrapper is never applied (and the
pure-call-import flag is unchanged). -/
theorem claim_ssr_false_untouched (diff : String → String → Option String)
    (p : NextDynamicPatcher) (span : Span) (identifier : Ident)
    (a0 a1 : ExprOrSpread) (osp : Span) (oprops : List PropOrSpread)
    (hmem : p.dynamic_bindings.contains identifier.to_id = true)
    (ha1 : a1.expr = .object osp oprops)
    (hssr : hasSsrFalseProps oprops = true)
    (hside : p.is_rsc_server_layer = true ∨ p.is_server = false) :
    ∀ (c' : CallExpr) (p' : NextDynamicPatcher),
      rewriteLoaderCall diff p (.mk span (.expr (.ident identifier)) [a0, a1]) =
        some (c', p') →
      c'.args.get? 0 = some a0 ∧
      p'.added_nextjs_pure_import = p.added_nextjs_pure_import := by
  intro c' p' h
  obtain ⟨spr, a0e⟩ := a0
  obtain ⟨a1spr, a1e⟩ := a1
  simp only [ExprOrSpread.expr] at ha1
  subst ha1
  simp only [rewriteLoaderCall, CallExpr.callee, CallExpr.args, CallExpr.span] at h
  rw [if_pos hmem] at h
  simp only [List.isEmpty_cons, Bool.false_eq_true, if_false] at h
  rw [if_neg (by simp)] at h
  rw [if_neg (show ¬ optionsShapeError
      [⟨spr, a0e⟩, ⟨a1spr, .object osp oprops⟩] = true by
    simp [optionsShapeError, ExprOrSpread.expr, Expr.isObjectLit])] at h
  simp only [rewriteCore, ExprOrSpread.expr, ExprOrSpread.spread] at h
  cases hcap : captureExpr { p with is_next_dynamic_first_arg := true } a0e with
  | none => rw [hcap] at h; exact absurd h (by simp)
  | some r =>
    obtain ⟨e2, p2⟩ := r
    rw [hcap] at h
    obtain ⟨he, hp⟩ := captureExpr_keeps _ _ _ _ hcap
    subst he
    have hadd2' := congrArg NextDynamicPatcher.added_nextjs_pure_import hp
    have hadd2 : p2.added_nextjs_pure_import = p.added_nextjs_pure_import := hadd2'
    have hserver2' := congrArg NextDynamicPatcher.is_server hp
    have hserver2 : p2.is_server = p.is_server := hserver2'
    have hlayer2' := congrArg NextDynamicPatcher.is_rsc_server_layer hp
    have hlayer2 : p2.is_rsc_server_layer = p.is_rsc_server_layer := hlayer2'
    clear hadd2' hserver2' hlayer2'
    cases hspec : p2.dynamically_imported_specifier with
    | none =>
      simp only [hspec] at h
      cases h with
      | refl => exact ⟨rfl, hadd2⟩
    | some s =>
      obtain ⟨spec, specSp⟩ := s
      simp only [hspec] at h
      have hf := buildGenerated_fields diff
        { p2 with is_next_dynamic_first_arg := false,
                  dynamically_imported_specifier := none } spec specSp
      obtain ⟨hfdev, hfserver, hflayer, hfadd, hfdiags⟩ := hf
      cases hbg : buildGenerated diff
        { p2 with is_next_dynamic_first_arg := false,
                  dynamically_imported_specifier := none } spec specSp with
      | mk gexp p4 =>
        rw [hbg] at h hfserver hflayer hfadd
        simp only at hfserver hflayer hfadd
        have hserver4 : p4.is_server = p.is_server := by rw [hfserver, hserver2]
        have hlayer4 : p4.is_rsc_server_layer = p.is_rsc_server_layer := by
          rw [hflayer, hlayer2]
        have hadd4 : p4.added_nextjs_pure_import = p.added_nextjs_pure_import := by
          rw [hfadd, hadd2]
        rcases hside with hlayer | hserver
        · rw [hlayer] at hlayer4
          cases hsv : p4.is_server with
          | true =>
            simp [hssr, hsv, hlayer4, List.get?] at h
            rcases h with ⟨h1, h2⟩
            subst h1; subst h2
            exact ⟨rfl, hadd4⟩
          | false =>
            simp [hssr, hsv, hlayer4, List.get?] at h
            rcases h with ⟨h1, h2⟩
            subst h1; subst h2
            exact ⟨rfl, hadd4⟩
        · rw [hserver] at hserver4
          simp [hssr, hserver4, List.get?] at h
          rcases h with ⟨h1, h2⟩
          subst h1; subst h2
          exact ⟨rfl, hadd4⟩

end NextDynamic

namespace NextDynamic

/-- Witness for C6: a client-side (`is_server = false`) loader call
with `ssr: false` keeps its first argument. -/
theorem claim_ssr_false_untouched_witness :
    (samplePatcher true false false .webpack).dynamic_bindings.contains
      (Ident.to_id ⟨"dynamic", 21, 0⟩) = true ∧
    sampleSsrFalseArg.expr = .object 10
      [.prop (.keyValue (.ident ⟨"ssr", 11, 0⟩) (.lit (.bool ⟨12, false⟩)))] ∧
    hasSsrFalseProps
      [.prop (.keyValue (.ident ⟨"ssr", 11, 0⟩) (.lit (.bool ⟨12, false⟩)))] = true ∧
    ((samplePatcher true false false .webpack).is_rsc_server_layer = true ∨
      (samplePatcher true false false .webpack).is_server = false) ∧
    rewriteLoaderCall diffPages (samplePatcher true false false .webpack)
        (.mk 20 (.expr (.ident ⟨"dynamic", 21, 0⟩)) [sampleImportArg, sampleSsrFalseArg]) =
      some (.mk 20 (.expr (.ident ⟨"dynamic", 21, 0⟩))
        [sampleImportArg,
         .mk none (.object DUMMY_SP
           [.prop (.keyValue (.ident ⟨"loadableGenerated", DUMMY_SP, 0⟩)
             (.object DUMMY_SP [.prop (.keyValue (.ident ⟨"modules", DUMMY_SP, 0⟩)
               (.array DUMMY_SP [some (.mk none (.bin DUMMY_SP "+"
                 (.lit (.str ⟨DUMMY_SP, "about.js -> "⟩))
                 (.lit (.str ⟨DUMMY_SP, "../components/hello"⟩))))]))])),
            .prop (.keyValue (.ident ⟨"ssr", 11, 0⟩) (.lit (.bool ⟨12, false⟩)))])],
        samplePatcher true false false .webpack) ∧
    ((CallExpr.mk 20 (.expr (.ident ⟨"dynamic", 21, 0⟩))
        [sampleImportArg,
         .mk none (.object DUMMY_SP
           [.prop (.keyValue (.ident ⟨"loadableGenerated", DUMMY_SP, 0⟩)
             (.object DUMMY_SP [.prop (.keyValue (.ident ⟨"modules", DUMMY_SP, 0⟩)
               (.array DUMMY_SP [some (.mk none (.bin DUMMY_SP "+"
                 (.lit (.str ⟨DUMMY_SP, "about.js -> "⟩))
                 (.lit (.str ⟨DUMMY_SP, "../components/hello"⟩))))]))])),
            .prop (.keyValue (.ident ⟨"ssr", 11, 0⟩) (.lit (.bool ⟨12, false⟩)))])]).args.get? 0 =
        some sampleImportArg ∧
      (samplePatcher true false false .webpack).added_nextjs_pure_import =
        (samplePatcher true false false .webpack).added_nextjs_pure_import) := by
  have hrw : rewriteLoaderCall diffPages (samplePatcher true false false .webpack)
      (.mk 20 (.expr (.ident ⟨"dynamic", 21, 0⟩)) [sampleImportArg, sampleSsrFalseArg]) =
      some (.mk 20 (.expr (.ident ⟨"dynamic", 21, 0⟩))
        [sampleImportArg,
         .mk none (.object DUMMY_SP
           [.prop (.keyValue (.ident ⟨"loadableGenerated", DUMMY_SP, 0⟩)
             (.object DUMMY_SP [.prop (.keyValue (.ident ⟨"modules", DUMMY_SP, 0⟩)
               (.array DUMMY_SP [some (.mk none (.bin DUMMY_SP "+"
                 (.lit (.str ⟨DUMMY_SP, "about.js -> "⟩))
                 (.lit (.str ⟨DUMMY_SP, "../components/hello"⟩))))]))])),
            .prop (.keyValue (.ident ⟨"ssr", 11, 0⟩) (.lit (.bool ⟨12, false⟩)))])],
        samplePatcher true false false .webpack) := by
    simp [rewriteLoaderCall, rewriteCore, captureExpr, captureCallExpr,
      captureCallChildren, captureCallee, captureArgList, captureFromArg, setSpec,
      buildGenerated, module_id_options, rel_filename, diffPages, hasSsrFalseProps,
      Expr.as_lit, optionsShapeError, Expr.isObjectLit, CallExpr.callee, CallExpr.args,
      CallExpr.span, ExprOrSpread.expr, ExprOrSpread.spread, samplePatcher,
      next_dynamic, sampleImportArg, sampleSsrFalseArg, FileName.toStr, Ident.to_id]
  refine ⟨rfl, rfl, rfl, Or.inr rfl, hrw, ?_⟩
  exact claim_ssr_false_untouched diffPages (samplePatcher true false false .webpack)
    20 ⟨"dynamic", 21, 0⟩ sampleImportArg sampleSsrFalseArg 10
    [.prop (.keyValue (.ident ⟨"ssr", 11, 0⟩) (.lit (.bool ⟨12, false⟩)))]
    rfl rfl rfl (Or.inr rfl) _ _ hrw

end NextDynamic

namespace NextDynamic

/-- C3 (amended): a loader call with `ssr: false` in its options,
compiled server-side off the server-component layer, **whose first
argument yields a captured specifier**, gets argument 0 replaced by a
zero-parameter async arrow whose body is a single expression statement
calling the pure-call helper on the (already children-folded) loader
expression; and the module gains exactly one prepended pure-call
helper import — `fold_module` prepends it once, depending only on the
sticky flag, no matter how many call sites set the flag. -/
theorem claim_ssr_false_wrapper (diff : String → String → Option String) :
    (∀ (p : NextDynamicPatcher) (span : Span) (identifier : Ident)
       (a0 a1 : ExprOrSpread) (osp : Span) (oprops : List PropOrSpread)
       (e2 : Expr) (p2 : NextDynamicPatcher) (spec : String) (specSp : Span),
      p.dynamic_bindings.contains identifier.to_id = true →
      a1.expr = .object osp oprops →
      hasSsrFalseProps oprops = true →
      p.is_server = true →
      p.is_rsc_server_layer = false →
      captureExpr { p with is_next_dynamic_first_arg := true } a0.expr =
        some (e2, p2) →
      p2.dynamically_imported_specifier = some (spec, specSp) →
      ∀ (c' : CallExpr) (p' : NextDynamicPatcher),
        rewriteLoaderCall diff p
            (.mk span (.expr (.ident identifier)) [a0, a1]) = some (c', p') →
        c'.args.get? 0 = some (.mk none (.arrow (.mk DUMMY_SP []
          (.blockStmt DUMMY_SP [.exprStmt DUMMY_SP (.call (.mk DUMMY_SP
            (.expr (.ident ⟨"__nextjs_pure", DUMMY_SP, 0⟩))
            [.mk none a0.expr]))]) true false))) ∧
        p'.added_nextjs_pure_import = true) ∧
    (∀ (pm : NextDynamicPatcher) (m : Module) (body1 : List ModuleItem)
       (pm' : NextDynamicPatcher),
      foldModuleItems diff pm m.body = some (body1, pm') →
      fold_module diff pm m =
        some ({ m with body :=
          if pm'.added_nextjs_pure_import then pure_import_item :: body1
          else body1 }, pm')) := by
  constructor
  · intro p span identifier a0 a1 osp oprops e2 p2 spec specSp
      hmem ha1 hssr hserver hlayer hcap hspec c' p' h
    obtain ⟨spr, a0e⟩ := a0
    obtain ⟨a1spr, a1e⟩ := a1
    simp only [ExprOrSpread.expr] at ha1 hcap ⊢
    subst ha1
    simp only [rewriteLoaderCall, CallExpr.callee, CallExpr.args, CallExpr.span] at h
    rw [if_pos hmem] at h
    simp only [List.isEmpty_cons, Bool.false_eq_true, if_false] at h
    rw [if_neg (by simp)] at h
    rw [if_neg (show ¬ optionsShapeError
        [⟨spr, a0e⟩, ⟨a1spr, .object osp oprops⟩] = true by
      simp [optionsShapeError, ExprOrSpread.expr, Expr.isObjectLit])] at h
    simp only [rewriteCore, ExprOrSpread.expr, ExprOrSpread.spread] at h
    rw [hcap] at h
    obtain ⟨he, hp⟩ := captureExpr_keeps _ _ _ _ hcap
    subst he
    have hserver2' := congrArg NextDynamicPatcher.is_server hp
    have hserver2 : p2.is_server = p.is_server := hserver2'
    have hlayer2' := congrArg NextDynamicPatcher.is_rsc_server_layer hp
    have hlayer2 : p2.is_rsc_server_layer = p.is_rsc_server_layer := hlayer2'
    clear hserver2' hlayer2'
    simp only [hspec] at h
    have hf := buildGenerated_fields diff
      { p2 with is_next_dynamic_first_arg := false,
                dynamically_imported_specifier := none } spec specSp
    obtain ⟨hfdev, hfserver, hflayer, hfadd, hfdiags⟩ := hf
    cases hbg : buildGenerated diff
      { p2 with is_next_dynamic_first_arg := false,
                dynamically_imported_specifier := none } spec specSp with
    | mk gexp p4 =>
      rw [hbg] at h hfserver hflayer
      simp only at hfserver hflayer
      have hserver4 : p4.is_server = true := by rw [hfserver, hserver2, hserver]
      have hlayer4 : p4.is_rsc_server_layer = false := by
        rw [hflayer, hlayer2, hlayer]
      simp [hssr, hserver4, hlayer4, List.get?] at h
      rcases h with ⟨h1, h2⟩
      subst h1; subst h2
      exact ⟨rfl, rfl⟩
  · intro pm m body1 pm' hfmi
    unfold fold_module
    rw [hfmi]
    cases hflag : pm'.added_nextjs_pure_import <;> simp [hflag]

/-- Counterexample for C3 as stated: a server-side,
non-server-component-layer loader call carrying `ssr: false` whose
first argument captures no specifier (a plain identifier) keeps its
original argument 0 and does not set the pure-call import flag — the
call and patcher come back unchanged apart from the cleared transient
fields, contradicting the claimed unconditional wrapping. -/
theorem claim_ssr_false_wrapper_cex :
    (samplePatcher false true false .webpack).is_server = true ∧
    (samplePatcher false true false .webpack).is_rsc_server_layer = false ∧
    hasSsrFalseProps
      [.prop (.keyValue (.ident ⟨"ssr", 11, 0⟩) (.lit (.bool ⟨12, false⟩)))] = true ∧
    rewriteLoaderCall diffPages (samplePatcher false true false .webpack)
        (.mk 20 (.expr (.ident ⟨"dynamic", 21, 0⟩)) [sampleOpaqueArg, sampleSsrFalseArg]) =
      some (.mk 20 (.expr (.ident ⟨"dynamic", 21, 0⟩)) [sampleOpaqueArg, sampleSsrFalseArg],
        samplePatcher false true false .webpack) ∧
    (samplePatcher false true false .webpack).added_nextjs_pure_import = false := by
  refine ⟨rfl, rfl, rfl, ?_, rfl⟩
  simp [rewriteLoaderCall, rewriteCore, captureExpr, setSpec, optionsShapeError,
    Expr.isObjectLit, CallExpr.callee, CallExpr.args, CallExpr.span, ExprOrSpread.expr,
    ExprOrSpread.spread, samplePatcher, next_dynamic, sampleOpaqueArg,
    sampleSsrFalseArg, Ident.to_id]

end NextDynamic

namespace NextDynamic

/-- Witness for C3 at a concrete server-side call: the captured-import
loader argument is wrapped in the async pure-call arrow, the flag is
set, and `fold_module` prepends the single helper import. -/
theorem claim_ssr_false_wrapper_witness :
    (samplePatcher false true false .webpack).is_server = true ∧
    (samplePatcher false true false .webpack).is_rsc_server_layer = false ∧
    captureExpr { samplePatcher false true false .webpack with
        is_next_dynamic_first_arg := true } sampleImportArg.expr =
      some (sampleImportArg.expr,
        { samplePatcher false true false .webpack with
            is_next_dynamic_first_arg := true,
            dynamically_imported_specifier := some ("../components/hello", 9) }) ∧
    rewriteLoaderCall diffPages (samplePatcher false true false .webpack)
        (.mk 20 (.expr (.ident ⟨"dynamic", 21, 0⟩)) [sampleImportArg, sampleSsrFalseArg]) =
      some (.mk 20 (.expr (.ident ⟨"dynamic", 21, 0⟩))
        [.mk none (.arrow (.mk DUMMY_SP []
           (.blockStmt DUMMY_SP [.exprStmt DUMMY_SP (.call (.mk DUMMY_SP
             (.expr (.ident ⟨"__nextjs_pure", DUMMY_SP, 0⟩))
             [.mk none sampleImportArg.expr]))]) true false)),
         .mk none (.object DUMMY_SP
           [.prop (.keyValue (.ident ⟨"loadableGenerated", DUMMY_SP, 0⟩)
             (.object DUMMY_SP [.prop (.keyValue (.ident ⟨"modules", DUMMY_SP, 0⟩)
               (.array DUMMY_SP [some (.mk none (.bin DUMMY_SP "+"
                 (.lit (.str ⟨DUMMY_SP, "about.js -> "⟩))
                 (.lit (.str ⟨DUMMY_SP, "../components/hello"⟩))))]))])),
            .prop (.keyValue (.ident ⟨"ssr", 11, 0⟩) (.lit (.bool ⟨12, false⟩)))])],
        { samplePatcher false true false .webpack with added_nextjs_pure_import := true }) ∧
    ((CallExpr.mk 20 (.expr (.ident ⟨"dynamic", 21, 0⟩))
        [.mk none (.arrow (.mk DUMMY_SP []
           (.blockStmt DUMMY_SP [.exprStmt DUMMY_SP (.call (.mk DUMMY_SP
             (.expr (.ident ⟨"__nextjs_pure", DUMMY_SP, 0⟩))
             [.mk none sampleImportArg.expr]))]) true false)),
         .mk none (.object DUMMY_SP
           [.prop (.keyValue (.ident ⟨"loadableGenerated", DUMMY_SP, 0⟩)
             (.object DUMMY_SP [.prop (.keyValue (.ident ⟨"modules", DUMMY_SP, 0⟩)
               (.array DUMMY_SP [some (.mk none (.bin DUMMY_SP "+"
                 (.lit (.str ⟨DUMMY_SP, "about.js -> "⟩))
                 (.lit (.str ⟨DUMMY_SP, "../components/hello"⟩))))]))])),
            .prop (.keyValue (.ident ⟨"ssr", 11, 0⟩) (.lit (.bool ⟨12, false⟩)))])]).args.get? 0 =
      some (.mk none (.arrow (.mk DUMMY_SP []
        (.blockStmt DUMMY_SP [.exprStmt DUMMY_SP (.call (.mk DUMMY_SP
          (.expr (.ident ⟨"__nextjs_pure", DUMMY_SP, 0⟩))
          [.mk none sampleImportArg.expr]))]) true false))) ∧
     ({ samplePatcher false true false .webpack with
         added_nextjs_pure_import := true } :
        NextDynamicPatcher).added_nextjs_pure_import = true) ∧
    (foldModuleItems diffPages
        ({ samplePatcher false true false .webpack with added_nextjs_pure_import := true })
        (⟨0, [], none⟩ : Module).body =
      some ([], { samplePatcher false true false .webpack with
        added_nextjs_pure_import := true }) ∧
     fold_module diffPages
        ({ samplePatcher false true false .webpack with added_nextjs_pure_import := true })
        (⟨0, [], none⟩ : Module) =
      some ({ (⟨0, [], none⟩ : Module) with body :=
        if ({ samplePatcher false true false .webpack with
            added_nextjs_pure_import := true } :
          NextDynamicPatcher).added_nextjs_pure_import then [pure_import_item] else [] },
        { samplePatcher false true false .webpack with
            added_nextjs_pure_import := true })) := by
  have hcap : captureExpr { samplePatcher false true false .webpack with
      is_next_dynamic_first_arg := true } sampleImportArg.expr =
    some (sampleImportArg.expr,
      { samplePatcher false true false .webpack with
          is_next_dynamic_first_arg := true,
          dynamically_imported_specifier := some ("../components/hello", 9) }) := by
    simp [captureExpr, captureCallExpr, captureCallChildren, captureCallee,
      captureArgList, captureFromArg, setSpec, CallExpr.callee, CallExpr.args,
      ExprOrSpread.expr, samplePatcher, next_dynamic, sampleImportArg]
  have hrw : rewriteLoaderCall diffPages (samplePatcher false true false .webpack)
      (.mk 20 (.expr (.ident ⟨"dynamic", 21, 0⟩)) [sampleImportArg, sampleSsrFalseArg]) =
    some (.mk 20 (.expr (.ident ⟨"dynamic", 21, 0⟩))
      [.mk none (.arrow (.mk DUMMY_SP []
         (.blockStmt DUMMY_SP [.exprStmt DUMMY_SP (.call (.mk DUMMY_SP
           (.expr (.ident ⟨"__nextjs_pure", DUMMY_SP, 0⟩))
           [.mk none sampleImportArg.expr]))]) true false)),
       .mk none (.object DUMMY_SP
         [.prop (.keyValue (.ident ⟨"loadableGenerated", DUMMY_SP, 0⟩)
           (.object DUMMY_SP [.prop (.keyValue (.ident ⟨"modules", DUMMY_SP, 0⟩)
             (.array DUMMY_SP [some (.mk none (.bin DUMMY_SP "+"
               (.lit (.str ⟨DUMMY_SP, "about.js -> "⟩))
               (.lit (.str ⟨DUMMY_SP, "../components/hello"⟩))))]))])),
          .prop (.keyValue (.ident ⟨"ssr", 11, 0⟩) (.lit (.bool ⟨12, false⟩)))])],
      { samplePatcher false true false .webpack with added_nextjs_pure_import := true }) := by
    simp [rewriteLoaderCall, rewriteCore, captureExpr, captureCallExpr,
      captureCallChildren, captureCallee, captureArgList, captureFromArg, setSpec,
      buildGenerated, module_id_options, rel_filename, diffPages, hasSsrFalseProps,
      Expr.as_lit, optionsShapeError, Expr.isObjectLit, CallExpr.callee, CallExpr.args,
      CallExpr.span, ExprOrSpread.expr, ExprOrSpread.spread, samplePatcher,
      next_dynamic, sampleImportArg, sampleSsrFalseArg, FileName.toStr, Ident.to_id]
  have hfmi : foldModuleItems diffPages
      ({ samplePatcher false true false .webpack with added_nextjs_pure_import := true })
      (⟨0, [], none⟩ : Module).body =
    some ([], { samplePatcher false true false .webpack with
      added_nextjs_pure_import := true }) := by
    simp [foldModuleItems, foldItemList, maybe_add_dynamically_imported_specifier,
      samplePatcher, next_dynamic]
  refine ⟨rfl, rfl, hcap, hrw, ?_, hfmi, ?_⟩
  · exact (claim_ssr_false_wrapper diffPages).1
      (samplePatcher false true false .webpack) 20 ⟨"dynamic", 21, 0⟩
      sampleImportArg sampleSsrFalseArg 10
      [.prop (.keyValue (.ident ⟨"ssr", 11, 0⟩) (.lit (.bool ⟨12, false⟩)))]
      sampleImportArg.expr
      { samplePatcher false true false .webpack with
          is_next_dynamic_first_arg := true,
          dynamically_imported_specifier := some ("../components/hello", 9) }
      "../components/hello" 9 rfl rfl rfl rfl rfl hcap rfl _ _ hrw
  · exact (claim_ssr_false_wrapper diffPages).2
      ({ samplePatcher false true false .webpack with added_nextjs_pure_import := true })
      (⟨0, [], none⟩ : Module) []
      ({ samplePatcher false true false .webpack with added_nextjs_pure_import := true })
      hfmi

end NextDynamic
